import Mathlib

/-!
Verification development for the Precision-Law-Enforcement backend.

This file gives a shallow embedding, in Lean 4, of the core pipeline of the
repository: the ROC-calendar date parser, the address de-identifier, the
age and violation-topic classifiers, the crash/ticket spreadsheet importers
(`backend/app/api/imports.py`) and the top-5 recommendation scoring query
(`backend/app/api/recommendations.py`), together with theorems settling the
stated correctness claims about them.

Modelling conventions:
* Python floats are modelled as rationals (`ℚ`); the arithmetic of the
  scoring formulas is exact at the reference inputs.
* A pandas cell is `PyCell`: a column can be `absent` from the row, hold the
  missing-value marker `nan`, or hold a string value.  Numeric spreadsheet
  cells are modelled by their decimal string rendering.
* Python exceptions (only `ValueError` from `datetime(...)` is reachable in
  the embedded code) are modelled with `Except Unit`.
* `random.uniform(-0.003, 0.003)` is modelled by an oracle stream
  `rng : ℕ → ℚ` together with a cursor that advances once per draw; theorems
  about jitter assume every value of the stream lies in `[-3/1000, 3/1000]`,
  which is the guarantee `random.uniform` provides.
-/

/-! ## Python value primitives -/

/-- A pandas cell as seen through `row.get`: the column may be absent
(Python `None`), present but missing (`NaN`), or a string value. -/
inductive PyCell where
  | absent
  | nan
  | val (s : String)
deriving DecidableEq, Repr

/-- `pd.isna` on a cell: true for `None` and `NaN`. -/
def pdIsna : PyCell → Bool
  | .absent => true
  | .nan => true
  | .val _ => false

/-- Python truthiness of a cell value: `None` and `""` are falsy; `NaN` is
truthy. -/
def pyTruthy : PyCell → Bool
  | .absent => false
  | .nan => true
  | .val s => s ≠ ""

/-- Python `str(...)` of a cell value: `str(None) = "None"`,
`str(float('nan')) = "nan"`. -/
def pyStr : PyCell → String
  | .absent => "None"
  | .nan => "nan"
  | .val s => s

/-- Python `a or b` on cell values (returns the first truthy operand,
else the second operand). -/
def pyOr (a b : PyCell) : PyCell := if pyTruthy a then a else b

/-- Whitespace recognizer used for Python `str.strip` and the regex `\s`. -/
def isWs (c : Char) : Bool := c.isWhitespace

/-- Python `str.strip()` on a character list. -/
def stripChars (cs : List Char) : List Char :=
  ((cs.dropWhile isWs).reverse.dropWhile isWs).reverse

/-- Python `str.strip()`. -/
def pyStrip (s : String) : String := String.mk (stripChars s.toList)

/-- ASCII digit test (the regex `\d` on this data). -/
def isDigitCh (c : Char) : Bool := c.isDigit

/-- Decimal value of a digit list (most significant first). -/
def digitsToNat (ds : List Char) : ℕ :=
  ds.foldl (fun a c => 10 * a + (c.toNat - '0'.toNat)) 0

/-! ## Date/time normalizer (`parse_roc_datetime`, `calculate_shift`) -/

/-- Match exactly `n` leading ASCII digits, returning their value and the
rest of the input. -/
def takeDigitsExact (n : ℕ) (cs : List Char) : Option (ℕ × List Char) :=
  let ds := cs.take n
  if ds.length = n && ds.all isDigitCh then some (digitsToNat ds, cs.drop n)
  else none

/-- Greedy numeric group followed by a one-character delimiter: tries the
digit counts in `lens` in order (regex `\d{lo,hi}` tries the longest
first), each followed by one character satisfying `sepOk`. -/
def pNumSep (lens : List ℕ) (sepOk : Char → Bool) (cs : List Char) :
    Option (ℕ × List Char) :=
  lens.findSome? fun n =>
    match takeDigitsExact n cs with
    | some (v, c :: r) => if sepOk c then some (v, r) else none
    | _ => none

/-- Greedy numeric group followed by the regex `\s+` (one or more
whitespace characters). -/
def pNumWs (lens : List ℕ) (cs : List Char) : Option (ℕ × List Char) :=
  lens.findSome? fun n =>
    match takeDigitsExact n cs with
    | some (v, r) =>
      let w := r.takeWhile isWs
      if w.length ≥ 1 then some (v, r.drop w.length) else none
    | none => none

/-- Greedy numeric group at the end of a pattern (nothing further is
required; `re.match` only anchors the prefix). -/
def pNumEnd (lens : List ℕ) (cs : List Char) : Option ℕ :=
  lens.findSome? fun n => (takeDigitsExact n cs).map (·.1)

/-- `re.match` of `(\d{2,3})[／-](\d{1,2})[／-](\d{1,2})\s+(\d{1,2}):(\d{2}):(\d{2})`. -/
def matchPattern1 (cs : List Char) : Option (ℕ × ℕ × ℕ × ℕ × ℕ × ℕ) := do
  let (y, r1) ← pNumSep [3, 2] (fun c => c = '/' || c = '-') cs
  let (mo, r2) ← pNumSep [2, 1] (fun c => c = '/' || c = '-') r1
  let (d, r3) ← pNumWs [2, 1] r2
  let (h, r4) ← pNumSep [2, 1] (· = ':') r3
  let (mi, r5) ← pNumSep [2] (· = ':') r4
  let s ← pNumEnd [2] r5
  return (y, mo, d, h, mi, s)

/-- `re.match` of `(\d{2,3})[／-](\d{1,2})[／-](\d{1,2})\s+(\d{1,2}):(\d{2})`. -/
def matchPattern2 (cs : List Char) : Option (ℕ × ℕ × ℕ × ℕ × ℕ) := do
  let (y, r1) ← pNumSep [3, 2] (fun c => c = '/' || c = '-') cs
  let (mo, r2) ← pNumSep [2, 1] (fun c => c = '/' || c = '-') r1
  let (d, r3) ← pNumWs [2, 1] r2
  let (h, r4) ← pNumSep [2, 1] (· = ':') r3
  let mi ← pNumEnd [2] r4
  return (y, mo, d, h, mi)

/-- `re.match` of `(\d{2,3})[／-](\d{1,2})[／-](\d{1,2})`. -/
def matchPattern3 (cs : List Char) : Option (ℕ × ℕ × ℕ) := do
  let (y, r1) ← pNumSep [3, 2] (fun c => c = '/' || c = '-') cs
  let (mo, r2) ← pNumSep [2, 1] (fun c => c = '/' || c = '-') r1
  let d ← pNumEnd [2, 1] r2
  return (y, mo, d)

/-- The value of Python's `datetime` object: a plain calendar timestamp. -/
structure PyDateTime where
  year : ℕ
  month : ℕ
  day : ℕ
  hour : ℕ
  minute : ℕ
  second : ℕ
deriving DecidableEq, Repr

/-- Gregorian leap-year rule (as used by Python's `datetime`). -/
def isLeapYear (y : ℕ) : Bool := y % 4 == 0 && (y % 100 != 0 || y % 400 == 0)

/-- Number of days of month `m` of year `y`. -/
def daysInMonth (y m : ℕ) : ℕ :=
  if m = 2 then (if isLeapYear y then 29 else 28)
  else if m = 4 || m = 6 || m = 9 || m = 11 then 30
  else 31

/-- The argument validation performed by Python's `datetime(...)`
constructor. -/
def datetimeOk (y m d h mi s : ℕ) : Bool :=
  1 ≤ y && y ≤ 9999 && 1 ≤ m && m ≤ 12 && 1 ≤ d && d ≤ daysInMonth y m &&
    h ≤ 23 && mi ≤ 59 && s ≤ 59

/-- Python's `datetime(y, m, d, h, mi, s)`: returns the timestamp, or
raises `ValueError` (modelled as `Except.error ()`) on out-of-range
components. -/
def datetimeNew (y m d h mi s : ℕ) : Except Unit PyDateTime :=
  if datetimeOk y m d h mi s then .ok ⟨y, m, d, h, mi, s⟩ else .error ()

/-- `parse_roc_datetime` (`backend/app/api/imports.py`): parse a
Republic-of-China-calendar date string, trying the three anchored patterns
in order and adding 1911 to the year offset.  `Except.error` models the
uncaught `ValueError` that `datetime(...)` raises on calendar-invalid
components;  `.ok none` is Python `None`. -/
def rocStripped (roc : PyCell) : List Char := stripChars (pyStr roc).toList

/-- `parse_roc_datetime` proper: try the three patterns on the stripped
string in order. -/

def parse_roc_datetime (roc : PyCell) : Except Unit (Option PyDateTime) :=
  if pdIsna roc || !pyTruthy roc then .ok none
  else
    match matchPattern1 (rocStripped roc) with
    | some (y, mo, d, h, mi, s) => do
        let dt ← datetimeNew (y + 1911) mo d h mi s
        return some dt
    | none =>
      match matchPattern2 (rocStripped roc) with
      | some (y, mo, d, h, mi) => do
          let dt ← datetimeNew (y + 1911) mo d h mi 0
          return some dt
      | none =>
        match matchPattern3 (rocStripped roc) with
        | some (y, mo, d) => do
            let dt ← datetimeNew (y + 1911) mo d 0 0 0
            return some dt
        | none => .ok none

/-- Zero-padded two-digit rendering of a number (Python `f"{n:02d}"` for
the values that occur). -/
def fmt2 (n : ℕ) : String := if n < 10 then "0" ++ toString n else toString n

/-- `calculate_shift`: two-hour shift bucket "01".."12" from the hour;
a missing timestamp maps to "01". -/
def calculate_shift (dt : Option PyDateTime) : String :=
  match dt with
  | none => "01"
  | some dt => fmt2 (dt.hour / 2 + 1)

/-! ## Scoring formulas (`backend/app/api/recommendations.py`) -/

/-- The per-topic VPI weights dictionary of `calculate_vpi`. -/
def vpiWeights : List (String × ℚ) :=
  [("DUI", 10), ("RED_LIGHT", 2), ("DANGEROUS_DRIVING", 3/2)]

/-- `calculate_vpi`: Violation Pressure Index. -/
def calculate_vpi (ticket_count : ℕ) (theme : String) : ℚ :=
  (ticket_count : ℚ) * ((vpiWeights.lookup theme).getD 1)

/-- `calculate_cri`: Crash Risk Index. -/
def calculate_cri (crash_count a1_count a2_count : ℕ) : ℚ :=
  (crash_count : ℚ) * 1 + (a1_count : ℚ) * 5 + (a2_count : ℚ) * 2

/-- The per-topic (α, β) weight pairs dictionary of `calculate_score`. -/
def scoreWeights : List (String × (ℚ × ℚ)) :=
  [("DUI", (3/5, 2/5)), ("RED_LIGHT", (1/2, 1/2)),
   ("DANGEROUS_DRIVING", (2/5, 3/5))]

/-- `calculate_score`: composite recommendation score α·VPI + β·CRI. -/
def calculate_score (vpi cri : ℚ) (theme : String) : ℚ :=
  let ab := (scoreWeights.lookup theme).getD (1/2, 1/2)
  ab.1 * vpi + ab.2 * cri

/-! ## Address de-identifier (`deidentify_address`) -/

/-- Character class `[一-龥]` (CJK unified ideographs) of the
de-identification regexes. -/
def isCJK (c : Char) : Bool := 0x4e00 ≤ c.toNat && c.toNat ≤ 0x9fa5

/-- `re.sub(pat, "", s)` for a pattern whose matches never have length 0:
scan left to right; `tryM suffix = some n` means the pattern matches a
prefix of length `n ≥ 1` of `suffix`, which is deleted, and scanning
resumes after it; otherwise the first character is kept and scanning
advances one position (the next start position the regex engine tries). -/
def scrubGo (tryM : List Char → Option ℕ) : ℕ → List Char → List Char
  | _, [] => []
  | k + 1, _ :: rest => scrubGo tryM k rest
  | 0, c :: rest =>
    match tryM (c :: rest) with
    | some n => scrubGo tryM (n - 1) rest
    | none => c :: scrubGo tryM 0 rest

/-- `re.sub(pat, "", s)` (entry point of `scrubGo` with nothing left to
skip). -/
def scrub (tryM : List Char → Option ℕ) (cs : List Char) : List Char :=
  scrubGo tryM 0 cs

/-- Length of the optional one-character suffix class `[前後旁]?`. -/
def houseSuffixLen : List Char → ℕ
  | c :: _ => if c = '前' || c = '後' || c = '旁' then 1 else 0
  | [] => 0

/-- Prefix match of the house-number pattern `\d+[-之]?\d*號[前後旁]?`,
returning the number of characters matched. -/
def tryHouse (cs : List Char) : Option ℕ :=
  let d1 := (cs.takeWhile isDigitCh).length
  if d1 = 0 then none
  else
    match cs.drop d1 with
    | c :: rest2 =>
      if c = '-' || c = '之' then
        let d2 := (rest2.takeWhile isDigitCh).length
        match rest2.drop d2 with
        | h :: rest4 =>
          if h = '號' then some (d1 + 1 + d2 + 1 + houseSuffixLen rest4)
          else none
        | [] => none
      else if c = '號' then some (d1 + 1 + houseSuffixLen rest2)
      else none
    | [] => none

/-- Prefix match of `[一-龥]{lens}tok` where the repetition count is
tried greedily in the order given by `lens` (largest first), returning the
number of characters matched. -/
def tryTokCJK (lens : List ℕ) (tok : Char) (cs : List Char) : Option ℕ :=
  lens.findSome? fun n =>
    if (cs.take n).length = n && (cs.take n).all isCJK &&
        cs.get? n = some tok
    then some (n + 1) else none

/-- Prefix match of the neighborhood token `[一-龥]{2,4}里`. -/
def tryLiTok (cs : List Char) : Option ℕ := tryTokCJK [4, 3, 2] '里' cs

/-- Prefix match of the district token `[一-龥]{2,3}區`. -/
def tryDistrictTok (cs : List Char) : Option ℕ := tryTokCJK [3, 2] '區' cs

/-- Prefix match of the literal alternation `臺南市|台南市`. -/
def tryCity (cs : List Char) : Option ℕ :=
  if cs.take 3 = ['臺', '南', '市'] || cs.take 3 = ['台', '南', '市'] then
    some 3
  else none

/-- `re.search(r"([一-龥]{lens}tok)", s)`: the leftmost match of
the token pattern, returned as the matched characters. -/
def searchTokCJK (lens : List ℕ) (tok : Char) : List Char → Option (List Char)
  | [] => none
  | c :: rest =>
    match tryTokCJK lens tok (c :: rest) with
    | some n => some ((c :: rest).take n)
    | none => searchTokCJK lens tok rest

/-- Prefix match of `[一-龥]+[cls]`: a maximal CJK run starting
here must contain a character of `cls` at an index ≥ 1 (the regex engine
backtracks the greedy `+` down to the last such character); the match is
the run up to and including the last `cls` character. -/
def tryRoad (cls : List Char) (cs : List Char) : Option (List Char) :=
  let run := cs.takeWhile isCJK
  match ((List.range run.length).filter fun j =>
      1 ≤ j && (run.get? j).any cls.contains).getLast? with
  | some j => some (run.take (j + 1))
  | none => none

/-- `re.search(r"([一-龥]+[cls])", s)`: leftmost road-name match. -/
def searchRoad (cls : List Char) : List Char → Option (List Char)
  | [] => none
  | c :: rest =>
    match tryRoad cls (c :: rest) with
    | some r => some r
    | none => searchRoad cls rest

/-- `re.split(r"[/、]", s)`. -/
def splitSeps : List Char → List (List Char)
  | [] => [[]]
  | c :: rest =>
    if c = '/' || c = '、' then [] :: splitSeps rest
    else
      match splitSeps rest with
      | [] => [[c]]
      | h :: t => (c :: h) :: t

/-- `deidentify_address` (`backend/app/api/imports.py`): returns
`(district, de-identified location description)`.  The four `re.sub`
passes (house numbers, neighborhood `里` tokens, city prefixes, district
tokens) are applied in source order; then a road name is extracted, with
an intersection override when the raw address contains `/` or `、`. -/
def deidentify_address (address : PyCell) : String × String :=
  if pdIsna address || !pyTruthy address then ("未知", "未知地點")
  else
    let a := stripChars (pyStr address).toList
    let district :=
      match searchTokCJK [3, 2] '區' a with
      | some m => String.mk m
      | none => "未知"
    let clean :=
      scrub tryDistrictTok (scrub tryCity (scrub tryLiTok (scrub tryHouse a)))
    let base :=
      match searchRoad ['路', '街', '道', '巷'] clean with
      | some r => r
      | none =>
        let t := stripChars clean
        if t = [] then "未知地點".toList else t
    let location_desc :=
      if a.contains '/' || a.contains '、' then
        match (splitSeps a).filterMap (searchRoad ['路', '街', '道']) with
        | r1 :: r2 :: _ => r1 ++ "與".toList ++ r2 ++ "路口".toList
        | _ => base
      else base
    (district, String.mk (location_desc.take 100))

/-- Observable for the de-identification guarantee: `true` iff some digit
character is immediately followed by the house-number suffix `號`. -/
def containsDigitHao : List Char → Bool
  | c :: d :: rest => (isDigitCh c && d = '號') || containsDigitHao (d :: rest)
  | _ => false

/-- Observable for the neighborhood-token half of the de-identification
guarantee: `true` iff two CJK characters are immediately followed by `里`
(any `[一-龥]{2,4}里` occurrence contains such a triple, and any such
triple is itself a `[一-龥]{2}里` occurrence). -/
def containsLiTok : List Char → Bool
  | a :: b :: c :: rest =>
    (isCJK a && isCJK b && c = '里') || containsLiTok (b :: c :: rest)
  | _ => false

/-! ## Age and violation-topic classifiers -/

/-- Unsigned decimal literal (`digits`, `digits.digits`, `.digits`,
`digits.`) as accepted by Python `float()`; exponent and infinity forms do
not occur in this data and are not modelled. -/
def parseUnsignedDec (cs : List Char) : Option ℚ :=
  let ip := cs.takeWhile isDigitCh
  match cs.drop ip.length with
  | [] => if ip = [] then none else some (digitsToNat ip)
  | '.' :: fr =>
    let fp := fr.takeWhile isDigitCh
    if fr.drop fp.length ≠ [] then none
    else if ip = [] && fp = [] then none
    else some ((digitsToNat ip : ℚ) + (digitsToNat fp : ℚ) / (10 ^ fp.length : ℚ))
  | _ => none

/-- Python `float(s)` on the decimal forms, `none` when `float` raises. -/
def pyFloat? (s : String) : Option ℚ :=
  match stripChars s.toList with
  | '+' :: r => parseUnsignedDec r
  | '-' :: r => (parseUnsignedDec r).map Neg.neg
  | r => parseUnsignedDec r

/-- Python `int(q)` on a float: truncation toward zero. -/
def truncToInt (q : ℚ) : ℤ := if q < 0 then -(⌊-q⌋) else ⌊q⌋

/-- `classify_age`: age bucket and elderly flag. -/
def classify_age (age : PyCell) : String × Bool :=
  if pdIsna age then ("未知", false)
  else
    match pyFloat? (pyStr age) with
    | none => ("未知", false)
    | some q =>
      let a : ℤ := truncToInt q
      if a < 18 then ("<18", false)
      else if a < 25 then ("18-24", false)
      else if a < 45 then ("25-44", false)
      else if a < 65 then ("45-64", false)
      else ("65+", true)

/-- One topic's entry of the `TOPIC_RULES` table: code prefixes, name
keywords, and (for red-light / dangerous only) alternate code prefixes
(the source reads them with `.get("codes", [])`, so a missing key is the
empty list). -/
structure TopicRule where
  prefixes : List String
  keywords : List String
  codes : List String
deriving Repr

/-- `TOPIC_RULES["DUI"]`. -/
def TOPIC_RULES_DUI : TopicRule :=
  ⟨["3501", "3503", "3504", "7302", "7303"],
   ["酒精", "酒駕", "酒測", "吸食毒品"], []⟩

/-- `TOPIC_RULES["RED_LIGHT"]`. -/
def TOPIC_RULES_RED_LIGHT : TopicRule :=
  ⟨["5301", "5302"],
   ["闘紅燈", "紅燈越線", "紅燈右轉", "紅燈左轉", "紅燈迴轉"],
   ["6002030060", "6002030110"]⟩

/-- `TOPIC_RULES["DANGEROUS_DRIVING"]`. -/
def TOPIC_RULES_DANGEROUS : TopicRule :=
  ⟨["4000", "4301", "4304"],
   ["超速", "危險駕駛", "逼車", "肇事逃逸"],
   ["6201", "6203", "6204", "4501030010", "4501030020"]⟩

/-- Python `s.startswith(p)`. -/
def strStartsWith (s p : String) : Bool := p.toList.isPrefixOf s.toList

/-- Python `sub in s` (substring containment). -/
def strContains (s sub : String) : Bool := decide (sub.toList <:+: s.toList)

/-- The three boolean topic flags. -/
structure TopicFlags where
  dui : Bool
  red_light : Bool
  dangerous : Bool
deriving DecidableEq, Repr

/-- One topic's flag: code starts with a prefix, or starts with an
alternate code, or the name contains a keyword (each loop of the source
sets the flag and breaks at the first hit). -/
def topicHit (rule : TopicRule) (code name : String) : Bool :=
  rule.prefixes.any (strStartsWith code) ||
    rule.codes.any (strStartsWith code) ||
    rule.keywords.any (strContains name)

/-- `classify_violation_topic`: only `pd.isna(code)` short-circuits to
all-false; otherwise the stripped code and the name (empty when `NaN`) are
matched against the three rule sets independently. -/
def classify_violation_topic (code name : PyCell) : TopicFlags :=
  if pdIsna code then ⟨false, false, false⟩
  else
    let c := pyStrip (pyStr code)
    let n := if pdIsna name then "" else pyStr name
    { dui := topicHit TOPIC_RULES_DUI c n
      red_light := topicHit TOPIC_RULES_RED_LIGHT c n
      dangerous := topicHit TOPIC_RULES_DANGEROUS c n }

/-- `get_severity_weight`: A1/A2/A3 ↦ 5/3/1, default 1. -/
def get_severity_weight (severity : String) : ℕ :=
  ((([("A1", 5), ("A2", 3), ("A3", 1)] : List (String × ℕ)).lookup severity).getD 1)

/-! ## Spreadsheet rows and the record importers (`backend/app/api/imports.py`)

A parsed spreadsheet row is an association list from (cleaned) column names
to cells.  Header-row auto-detection and Excel deserialization happen
before the per-row loop and are not part of the embedded logic: the
importers below receive the list of parsed rows.  `batch_id` (derived from
the wall clock in the source) is a parameter. -/

/-- A spreadsheet row: column name ↦ cell. -/
abbrev Row := List (String × PyCell)

/-- `row.get(col)` on a pandas row: `None` when the column is absent. -/
def rowGet (r : Row) (c : String) : PyCell := (r.lookup c).getD .absent

/-- `row.get(col, default)`. -/
def rowGetD (r : Row) (c : String) (d : PyCell) : PyCell := (r.lookup c).getD d

/-- `col in row.index`. -/
def rowHas (r : Row) (c : String) : Bool := (r.lookup c).isSome

/-- `sum(1 for v in row if pd.notna(v) and str(v).strip())`. -/
def nonEmptyCount (r : Row) : ℕ :=
  (r.filter fun p => !pdIsna p.2 && pyStrip (pyStr p.2) ≠ "").length

/-- The ordered case-number header variants of `import_crash_file`. -/
def crashIdCols : List String :=
  ["案件編號", "案號", "事故編號", "編號", "案件序號", "序號", "CaseID", "case_id"]

/-- Resolve the crash natural key: first listed column that is present and
non-missing whose stripped string value is non-empty and contains a digit. -/
def resolveCaseId (row : Row) : Option String :=
  crashIdCols.findSome? fun col =>
    if rowHas row col && !pdIsna (rowGet row col) then
      let v := pyStrip (pyStr (rowGet row col))
      if v ≠ "" && v.toList.any isDigitCh then some v else none
    else none

/-- The ordered occurrence-time header variants of `import_crash_file`. -/
def crashTimeCols : List String :=
  ["發生時間", "事故時間", "發生日期時間", "日期時間", "時間", "發生日期"]

/-- Resolve and parse the occurrence time: try each listed column that is
present and non-missing through `parse_roc_datetime`, stopping at the
first successful parse; a `ValueError` escapes to the per-row handler. -/
def resolveOccurredTime (row : Row) : List String → Except Unit (Option PyDateTime)
  | [] => .ok none
  | c :: rest =>
    if rowHas row c && !pdIsna (rowGet row c) then do
      match ← parse_roc_datetime (rowGet row c) with
      | some dt => .ok (some dt)
      | none => resolveOccurredTime row rest
    else resolveOccurredTime row rest

/-- The ordered location header variants of `import_crash_file`. -/
def crashLocCols : List String :=
  ["發生地點", "事故地點", "地點", "地址", "發生地址", "事故位置"]

/-- The ordered severity header variants of `import_crash_file`. -/
def crashSevCols : List String :=
  ["交通事故類別", "事故類別", "類別", "嚴重程度", "事故等級"]

/-- First listed column that is present and non-missing (`None` when the
scan finds nothing, matching the un-assigned Python variable). -/
def resolveFirstCell (cols : List String) (row : Row) : PyCell :=
  (cols.findSome? fun c =>
    if rowHas row c && !pdIsna (rowGet row c) then some (rowGet row c)
    else none).getD .absent

/-- Python ASCII `str.upper()` (the data's severity codes are ASCII). -/
def pyUpper (s : String) : String := String.mk (s.toList.map Char.toUpper)

/-- `str(cell_or_chain).strip() or None`. -/
def optStrField (a : PyCell) : Option String :=
  let s := pyStrip (pyStr a)
  if s = "" then none else some s

/-- Days since 0000-03-01 of a civil date (Gregorian, valid `y ≥ 1`);
used only to derive the day of week. -/
def daysFromCivil (y m d : ℕ) : ℕ :=
  let y' := if m ≤ 2 then y - 1 else y
  let era := y' / 400
  let yoe := y' % 400
  let mp := (m + 9) % 12
  let doy := (153 * mp + 2) / 5 + d - 1
  let doe := yoe * 365 + yoe / 4 - yoe / 100 + doy
  era * 146097 + doe

/-- Python `datetime.weekday()`: Monday = 0 … Sunday = 6. -/
def PyDateTime.weekday (dt : PyDateTime) : ℕ :=
  (daysFromCivil dt.year dt.month dt.day + 2) % 7

/-- Python `datetime.date()`. -/
structure PyDate where
  year : ℕ
  month : ℕ
  day : ℕ
deriving DecidableEq, Repr

/-- `datetime.date()` projection. -/
def PyDateTime.date (dt : PyDateTime) : PyDate := ⟨dt.year, dt.month, dt.day⟩

/-- Calendar order on dates (used by the SQL date-range filters). -/
def PyDate.leb (a b : PyDate) : Bool :=
  a.year < b.year ||
    (a.year = b.year &&
      (a.month < b.month || (a.month = b.month && a.day ≤ b.day)))

/-- `DISTRICT_COORDINATES` of `backend/app/api/imports.py` (in source
order; dict iteration preserves it for the partial-match scan). -/
def importDistrictCoords : List (String × ℚ × ℚ) :=
  [("新化區", (23.0386, 120.3108)), ("山上區", (23.0975, 120.3547)),
   ("左鎮區", (23.0578, 120.4014)), ("玉井區", (23.1239, 120.4614)),
   ("楠西區", (23.1814, 120.4853)), ("南化區", (23.1417, 120.4731)),
   ("善化區", (23.1322, 120.2967)), ("大內區", (23.1203, 120.3508)),
   ("仁德區", (22.9722, 120.2331)), ("歸仁區", (22.9667, 120.2933)),
   ("關廟區", (22.9617, 120.3278)), ("龍崎區", (22.9622, 120.3847)),
   ("永康區", (23.0264, 120.2567)), ("東區", (22.9833, 120.2167)),
   ("南區", (22.9500, 120.1833)), ("北區", (23.0000, 120.2000)),
   ("中西區", (22.9917, 120.1917)), ("安南區", (23.0500, 120.1667)),
   ("安平區", (22.9917, 120.1667)), ("新營區", (23.3103, 120.3167)),
   ("鹽水區", (23.3203, 120.2661)), ("白河區", (23.3517, 120.4156)),
   ("柳營區", (23.2778, 120.3114)), ("後壁區", (23.3664, 120.3583)),
   ("東山區", (23.3258, 120.4036)), ("麻豆區", (23.1817, 120.2483)),
   ("下營區", (23.2347, 120.2647)), ("六甲區", (23.2314, 120.3472)),
   ("官田區", (23.1944, 120.3139)), ("佳里區", (23.1650, 120.1772)),
   ("學甲區", (23.2328, 120.1803)), ("西港區", (23.1222, 120.2028)),
   ("七股區", (23.1450, 120.1267)), ("將軍區", (23.1997, 120.1092)),
   ("北門區", (23.2672, 120.1261)), ("新市區", (23.0794, 120.2911)),
   ("安定區", (23.1014, 120.2353))]

/-- Python `s.replace(pat, rep)` (all non-overlapping occurrences, left to
right; `pat` is non-empty at every call site). -/
def replaceAllGo (pat rep : List Char) : ℕ → List Char → List Char
  | _, [] => []
  | k + 1, _ :: rest => replaceAllGo pat rep k rest
  | 0, c :: rest =>
    if pat ≠ [] && pat.isPrefixOf (c :: rest) then
      rep ++ replaceAllGo pat rep (pat.length - 1) rest
    else c :: replaceAllGo pat rep 0 rest

/-- All occurrences replaced (entry point of `replaceAllGo`). -/
def replaceAllL (pat rep cs : List Char) : List Char :=
  replaceAllGo pat rep 0 cs

/-- Python `s.replace(pat, rep)` on strings. -/
def strReplace (s pat rep : String) : String :=
  String.mk (replaceAllL pat.toList rep.toList s.toList)

/-- `get_district_coordinates`: strip city prefixes, look the district up
(exactly, then by substring in dict order), and jitter each coordinate
with one fresh `random.uniform(-0.003, 0.003)` draw from the oracle
stream `rng`; returns the coordinate pair and the advanced draw cursor. -/
def cleanDistrict (district : String) : String :=
  let clean0 := strReplace (strReplace district "臺南市" "") "台南市" ""
  if clean0.toList.take 1 = ['市'] then String.mk (clean0.toList.drop 1)
  else clean0

/-- `get_district_coordinates`, continued: district lookup and jitter
(the city-prefix stripping is `cleanDistrict`). -/
def get_district_coordinates (rng : ℕ → ℚ) (ctr : ℕ) (district : String) :
    (Option ℚ × Option ℚ) × ℕ :=
  if district = "" then ((none, none), ctr)
  else
    let clean := cleanDistrict district
    match importDistrictCoords.lookup clean with
    | some (lat, lng) => ((some (lat + rng ctr), some (lng + rng (ctr + 1))), ctr + 2)
    | none =>
      match importDistrictCoords.findSome? (fun e =>
          if strContains clean e.1 || strContains e.1 clean then some e.2
          else none) with
      | some (lat, lng) =>
        ((some (lat + rng ctr), some (lng + rng (ctr + 1))), ctr + 2)
      | none => ((none, none), ctr)

/-- The persisted `Crash` record (`backend/app/models/core.py`), restricted
to the columns the importer writes. -/
structure Crash where
  case_id : String
  import_batch_id : String
  occurred_date : PyDate
  occurred_time : PyDateTime
  shift_id : String
  district : String
  location_desc : String
  latitude : Option ℚ
  longitude : Option ℚ
  severity : String
  severity_weight : ℕ
  year : ℕ
  month : ℕ
  day_of_week : ℕ
  driver_age_group : String
  is_elderly : Bool
  driver_gender : Option String
  weather : Option String
  light : Option String
  party_type : Option String
  cause : Option String
  suspected_alcohol : Bool
deriving DecidableEq, Repr

/-- The age-group/elderly computation of `import_crash_file`: the age
column takes precedence; otherwise the age is derived from a parsed birth
date (whose `parse_roc_datetime` call can raise) and bucketed by the
inline thresholds of the source. -/
def crashAgeInfo (row : Row) (occurred : PyDateTime) :
    Except Unit (String × Bool) := do
  let age_val := pyOr (pyOr (rowGet row "當事人年齡") (rowGet row "年齡"))
    (rowGet row "Age")
  let birth_val := pyOr (pyOr (rowGet row "出生年月日") (rowGet row "出生日期"))
    (rowGet row "生日")
  if !pdIsna age_val then
    return classify_age age_val
  else if !pdIsna birth_val then
    match ← parse_roc_datetime birth_val with
    | some birth =>
      let age : ℤ := (occurred.year : ℤ) - (birth.year : ℤ) -
        (if occurred.month < birth.month ∨
            (occurred.month = birth.month ∧ occurred.day < birth.day)
         then 1 else 0)
      if age ≥ 65 then return ("65+", true)
      else if age < 18 then return ("<18", false)
      else if age < 25 then return ("18-24", false)
      else if age < 45 then return ("25-44", false)
      else return ("45-64", false)
    | none => return ("未知", false)
  else
    return ("未知", false)

/-- The suspected-alcohol heuristic of `import_crash_file`. -/
def crashAlcohol (row : Row) : Bool :=
  let alcohol_val := pyOr (rowGet row "酒測值") (rowGet row "飲酒情形")
  if pyTruthy alcohol_val then
    let vs := pyStr alcohol_val
    if strContains vs "飲酒" || strContains vs "酒後" then true
    else
      match pyFloat? vs with
      | some q => q > 0
      | none => false
  else false

/-- Build the `Crash(...)` record from a row whose key and occurrence time
are already resolved; threads the jitter cursor through the two
`get_district_coordinates` calls made for latitude and longitude.  Raises
(`Except.error`) exactly when the birth-date parse raises. -/
def buildCrash (rng : ℕ → ℚ) (ctr : ℕ) (batch_id : String) (row : Row)
    (case_id : String) (occurred : PyDateTime) : Except Unit (Crash × ℕ) := do
  let (district, location_desc) :=
    deidentify_address (resolveFirstCell crashLocCols row)
  let sev0 :=
    match resolveFirstCell crashSevCols row with
    | .absent => "A3"
    | v => pyUpper (pyStrip (pyStr v))
  let severity := if sev0 = "A1" || sev0 = "A2" || sev0 = "A3" then sev0 else "A3"
  let (driver_age_group, is_elderly) ← crashAgeInfo row occurred
  let party_type := optStrField (pyOr (pyOr (rowGet row "當事人車種")
    (rowGet row "車種")) (.val ""))
  let cause := optStrField (pyOr (pyOr (rowGet row "肇事主要原因")
    (rowGet row "肇事原因")) (.val ""))
  let driver_gender := optStrField (pyOr (pyOr (rowGet row "當事人性別")
    (rowGet row "性別")) (.val ""))
  let weather := optStrField (pyOr (rowGet row "天候") (.val ""))
  let light := optStrField (pyOr (rowGet row "光線") (.val ""))
  let suspected_alcohol := crashAlcohol row
  let latCell := rowGet row "緯度"
  let (latitude, ctr1) :=
    if !pdIsna latCell then (pyFloat? (pyStr latCell), ctr)
    else
      let r := get_district_coordinates rng ctr district
      (r.1.1, r.2)
  let lngCell := rowGet row "經度"
  let (longitude, ctr2) :=
    if !pdIsna lngCell then (pyFloat? (pyStr lngCell), ctr1)
    else
      let r := get_district_coordinates rng ctr1 district
      (r.1.2, r.2)
  return ({ case_id := case_id
            import_batch_id := batch_id
            occurred_date := occurred.date
            occurred_time := occurred
            shift_id := calculate_shift (some occurred)
            district := district
            location_desc := location_desc
            latitude := latitude
            longitude := longitude
            severity := severity
            severity_weight := get_severity_weight severity
            year := occurred.year
            month := occurred.month
            day_of_week := occurred.weekday
            driver_age_group := driver_age_group
            is_elderly := is_elderly
            driver_gender := driver_gender
            weather := weather
            light := light
            party_type := party_type
            cause := cause
            suspected_alcohol := suspected_alcohol }, ctr2)

/-- The `{total, new, skipped, errors}` counters of an import. -/
structure ImportStats where
  total : ℕ
  new : ℕ
  skipped : ℕ
  errors : ℕ
deriving DecidableEq, Repr

/-- Mutable state of the crash-import loop: staged/committed records (the
session sees staged rows in dedup queries), counters, the error-message
list, and the jitter-draw cursor. -/
structure CrashState where
  db : List Crash
  stats : ImportStats
  msgs : List String
  ctr : ℕ
deriving DecidableEq, Repr

/-- One iteration of the `import_crash_file` row loop on row `row` with
0-based dataframe index `idx` (spreadsheet row `idx + 2` in messages). -/
def crashStep (rng : ℕ → ℚ) (batch_id : String) (s : CrashState)
    (p : ℕ × Row) : CrashState :=
  let (idx, row) := p
  match resolveCaseId row with
  | none =>
    if nonEmptyCount row < 3 then s
    else
      { s with stats := { s.stats with errors := s.stats.errors + 1 }
               msgs := s.msgs ++ ["第 " ++ toString (idx + 2) ++ " 列：缺少案件編號"] }
  | some case_id =>
    if (s.db.map Crash.case_id).contains case_id then
      { s with stats := { s.stats with skipped := s.stats.skipped + 1 } }
    else
      match resolveOccurredTime row crashTimeCols with
      | .error _ =>
        { s with stats := { s.stats with errors := s.stats.errors + 1 }
                 msgs := if s.msgs.length < 10 then
                     s.msgs ++ ["第 " ++ toString (idx + 2) ++ " 列：ValueError"]
                   else s.msgs }
      | .ok none =>
        { s with stats := { s.stats with errors := s.stats.errors + 1 }
                 msgs := s.msgs ++
                   ["第 " ++ toString (idx + 2) ++ " 列：發生時間格式錯誤或缺失"] }
      | .ok (some occurred) =>
        match buildCrash rng s.ctr batch_id row case_id occurred with
        | .error _ =>
          { s with stats := { s.stats with errors := s.stats.errors + 1 }
                   msgs := if s.msgs.length < 10 then
                       s.msgs ++ ["第 " ++ toString (idx + 2) ++ " 列：ValueError"]
                     else s.msgs }
        | .ok (crash, ctr') =>
          { s with db := s.db ++ [crash]
                   stats := { s.stats with new := s.stats.new + 1 }
                   ctr := ctr' }

/-- `import_crash_file`: fold the row loop over the parsed rows (batch
commits every 100 insertions do not change the resulting store and are
not modelled separately).  The response's `errors` field is
`msgs.take 10`. -/
def import_crash_file (rng : ℕ → ℚ) (batch_id : String) (db0 : List Crash)
    (rows : List Row) : CrashState :=
  rows.enum.foldl (crashStep rng batch_id)
    ⟨db0, ⟨rows.length, 0, 0, 0⟩, [], 0⟩

/-- The persisted `Ticket` record (`backend/app/models/core.py`),
restricted to the columns the importer writes. -/
structure Ticket where
  ticket_number : String
  import_batch_id : String
  violation_date : PyDate
  violation_time : PyDateTime
  shift_id : String
  district : String
  location_desc : String
  latitude : Option ℚ
  longitude : Option ℚ
  violation_code : String
  violation_name : Option String
  topic_dui : Bool
  topic_red_light : Bool
  topic_dangerous : Bool
  year : ℕ
  month : ℕ
  day_of_week : ℕ
  unit_code : Option String
  driver_age_group : String
  is_elderly : Bool
  vehicle_type : Option String
  driver_gender : Option String
deriving DecidableEq, Repr

/-- Python `s.split(" ", 1)`: text before the first space, and the rest
after it when a space exists. -/
def splitFirstSpace (cs : List Char) : List Char × Option (List Char) :=
  let pre := cs.takeWhile (· ≠ ' ')
  match cs.drop pre.length with
  | [] => (pre, none)
  | _ :: rest => (pre, some rest)

/-- `str(row.get(col, "")) if not pd.isna(row.get(col)) else ""`. -/
def cellStrOrEmpty (row : Row) (col : String) : String :=
  if pdIsna (rowGet row col) then "" else pyStr (rowGetD row col (.val ""))

/-- Build the `Ticket(...)` record from a row whose number and violation
time are already resolved (no raising step remains past the time parse). -/
def buildTicket (batch_id : String) (row : Row) (ticket_number : String)
    (violation : PyDateTime) : Ticket :=
  let location1 := cellStrOrEmpty row "違規地點一"
  let location2 := cellStrOrEmpty row "違規地點備註"
  let full_location := pyStrip (location1 ++ " " ++ location2)
  let (district, location_desc) := deidentify_address (.val full_location)
  let violation_full := cellStrOrEmpty row "違規條款1"
  let parts := splitFirstSpace violation_full.toList
  let violation_code := String.mk parts.1
  let violation_name := match parts.2 with
    | some r => String.mk r
    | none => ""
  let topics := classify_violation_topic (.val violation_code) (.val violation_name)
  let (age_group, is_elderly) := classify_age (rowGet row "違規人年齡")
  let driver_gender := optStrField (pyOr (pyOr (rowGet row "違規人性別")
    (rowGet row "性別")) (.val ""))
  let vehicle_type := optStrField (pyOr (rowGet row "車種") (.val ""))
  { ticket_number := ticket_number
    import_batch_id := batch_id
    violation_date := violation.date
    violation_time := violation
    shift_id := calculate_shift (some violation)
    district := district
    location_desc := location_desc
    latitude := if !pdIsna (rowGet row "緯度") then
        pyFloat? (pyStr (rowGet row "緯度"))
      else none
    longitude := if !pdIsna (rowGet row "經度") then
        pyFloat? (pyStr (rowGet row "經度"))
      else none
    violation_code := violation_code
    violation_name := if violation_name ≠ "" then
        some (String.mk (violation_name.toList.take 200))
      else none
    topic_dui := topics.dui
    topic_red_light := topics.red_light
    topic_dangerous := topics.dangerous
    year := violation.year
    month := violation.month
    day_of_week := violation.weekday
    unit_code := if !pdIsna (rowGet row "舉發單位") then
        some (String.mk ((pyStr (rowGetD row "舉發單位" (.val ""))).toList.take 50))
      else none
    driver_age_group := age_group
    is_elderly := is_elderly
    vehicle_type := vehicle_type
    driver_gender := driver_gender }

/-- Mutable state of the ticket-import loop. -/
structure TicketState where
  db : List Ticket
  stats : ImportStats
  duiCount : ℕ
  redLightCount : ℕ
  dangerousCount : ℕ
  msgs : List String
deriving DecidableEq, Repr

/-- One iteration of the `import_ticket_file` row loop.  Unlike the crash
loop there is no blank-row fast path: a row without a ticket number is
always counted as an error. -/
def ticketStep (batch_id : String) (s : TicketState) (p : ℕ × Row) :
    TicketState :=
  let (idx, row) := p
  let ticket_number := pyStrip (pyStr (rowGetD row "舉發單號" (.val "")))
  if ticket_number = "" then
    { s with stats := { s.stats with errors := s.stats.errors + 1 }
             msgs := s.msgs ++ ["第 " ++ toString (idx + 2) ++ " 列：缺少舉發單號"] }
  else if (s.db.map Ticket.ticket_number).contains ticket_number then
    { s with stats := { s.stats with skipped := s.stats.skipped + 1 } }
  else
    let time_str := pyOr (rowGet row "違規時間(出)") (rowGet row "建檔時間")
    match parse_roc_datetime time_str with
    | .error _ =>
      { s with stats := { s.stats with errors := s.stats.errors + 1 }
               msgs := if s.msgs.length < 10 then
                   s.msgs ++ ["第 " ++ toString (idx + 2) ++ " 列：ValueError"]
                 else s.msgs }
    | .ok none =>
      { s with stats := { s.stats with errors := s.stats.errors + 1 }
               msgs := s.msgs ++
                 ["第 " ++ toString (idx + 2) ++ " 列：違規時間格式錯誤"] }
    | .ok (some violation) =>
      let t := buildTicket batch_id row ticket_number violation
      { s with db := s.db ++ [t]
               stats := { s.stats with new := s.stats.new + 1 }
               duiCount := s.duiCount + (if t.topic_dui then 1 else 0)
               redLightCount := s.redLightCount + (if t.topic_red_light then 1 else 0)
               dangerousCount := s.dangerousCount + (if t.topic_dangerous then 1 else 0) }

/-- `import_ticket_file`: fold the row loop over the parsed rows. -/
def import_ticket_file (batch_id : String) (db0 : List Ticket)
    (rows : List Row) : TicketState :=
  rows.enum.foldl (ticketStep batch_id)
    ⟨db0, ⟨rows.length, 0, 0, 0⟩, 0, 0, 0, []⟩

/-! ## Top-5 recommendation query (`backend/app/api/recommendations.py`) -/

/-- `DISTRICT_COORDINATES` of `backend/app/api/recommendations.py`
(a distinct table from the importer's, in source order). -/
def recsDistrictCoords : List (String × ℚ × ℚ) :=
  [("新化區", (23.0386, 120.3108)), ("山上區", (23.0975, 120.3547)),
   ("左鎮區", (23.0578, 120.4014)), ("玉井區", (23.1239, 120.4614)),
   ("楠西區", (23.1814, 120.4853)), ("南化區", (23.1417, 120.4731)),
   ("仁德區", (22.9722, 120.2331)), ("歸仁區", (22.9667, 120.2933)),
   ("關廟區", (22.9617, 120.3278)), ("龍崎區", (22.9622, 120.3847)),
   ("永康區", (23.0264, 120.2567)), ("東區", (22.9833, 120.2167)),
   ("南區", (22.9500, 120.1833)), ("北區", (23.0000, 120.2000)),
   ("中西區", (22.9917, 120.1917)), ("安南區", (23.0500, 120.1667)),
   ("安平區", (22.9917, 120.1667)), ("新營區", (23.3103, 120.3167)),
   ("鹽水區", (23.3203, 120.2661)), ("白河區", (23.3517, 120.4156)),
   ("柳營區", (23.2778, 120.3114)), ("後壁區", (23.3664, 120.3583)),
   ("東山區", (23.3258, 120.4036)), ("麻豆區", (23.1817, 120.2483)),
   ("下營區", (23.2347, 120.2647)), ("六甲區", (23.2319, 120.3478)),
   ("官田區", (23.1942, 120.3142)), ("大內區", (23.1203, 120.3497)),
   ("佳里區", (23.1647, 120.1772)), ("學甲區", (23.2328, 120.1803)),
   ("西港區", (23.1233, 120.2033)), ("七股區", (23.1453, 120.1314)),
   ("將軍區", (23.2000, 120.1500)), ("北門區", (23.2672, 120.1256)),
   ("新市區", (23.0786, 120.2919)), ("善化區", (23.1336, 120.2964)),
   ("安定區", (23.1017, 120.2364)), ("市新化區", (23.0386, 120.3108)),
   ("市山上區", (23.0975, 120.3547)), ("市左鎮區", (23.0578, 120.4014))]

/-- `DEFAULT_COORDS`. -/
def DEFAULT_COORDS : ℚ × ℚ := (23.0, 120.2)

/-- Python `round(q, 2)` (round half to even, exact on rationals). -/
def roundHalfEven (q : ℚ) : ℤ :=
  let f := ⌊q⌋
  let r := q - (f : ℚ)
  if r < 1/2 then f
  else if r > 1/2 then f + 1
  else if f % 2 = 0 then f else f + 1

/-- `round(x, 2)`. -/
def pyRound2 (q : ℚ) : ℚ := ((roundHalfEven (q * 100) : ℚ)) / 100

/-- The `metrics` object of a recommendation entry. -/
structure RecMetrics where
  vpi : ℚ
  cri : ℚ
  score : ℚ
deriving DecidableEq, Repr

/-- The `statistics` object of a recommendation entry. -/
structure RecStats where
  tickets : ℕ
  crashes : ℕ
  a1_count : ℕ
  a2_count : ℕ
deriving DecidableEq, Repr

/-- One entry of the top-5 recommendation list (`site_id`, `site_name` and
`location_desc` all repeat `district` in the source and are not duplicated
here). -/
structure SiteRec where
  rank : ℕ
  district : String
  latitude : ℚ
  longitude : ℚ
  metrics : RecMetrics
  statistics : RecStats
deriving DecidableEq, Repr

/-- `topic_column_map.get(topic_code)`: the ticket topic flag selected by
the query's topic code; `none` triggers the 400 response. -/
def topicColumn? (topic_code : String) : Option (Ticket → Bool) :=
  if topic_code = "DUI" then some Ticket.topic_dui
  else if topic_code = "RED_LIGHT" then some Ticket.topic_red_light
  else if topic_code = "DANGEROUS_DRIVING" then some Ticket.topic_dangerous
  else none

/-- The `if shift_id:` filter: applied only when the parameter is present
and non-empty. -/
def shiftOk (shift_id : Option String) (t : Ticket) : Bool :=
  match shift_id with
  | none => true
  | some sh => if sh = "" then true else t.shift_id = sh

/-- The WHERE clause of the ticket aggregation of `get_top5_recommendations`. -/
def ticketMatches (col : Ticket → Bool) (shift_id : Option String)
    (start_date end_date : PyDate) (t : Ticket) : Bool :=
  PyDate.leb start_date t.violation_date &&
    PyDate.leb t.violation_date end_date && col t && shiftOk shift_id t

/-- Distinct values in first-occurrence order (the grouping keys of the
SQL `GROUP BY`). -/
def firstOccurrencesGo (seen : List String) : List String → List String
  | [] => []
  | d :: rest =>
    if seen.contains d then firstOccurrencesGo seen rest
    else d :: firstOccurrencesGo (seen ++ [d]) rest

/-- Distinct values in first-occurrence order (entry point). -/
def firstOccurrences (l : List String) : List String :=
  firstOccurrencesGo [] l

/-- The per-district ticket counts (`district_stats`). -/
def ticketDistrictStats (ts : List Ticket) : List (String × ℕ) :=
  (firstOccurrences (ts.map Ticket.district)).map fun d =>
    (d, (ts.filter (fun t => t.district = d)).length)

/-- The `(crash_count, a1_count, a2_count)` triple of `crash_dict` for a
district (`(0, 0, 0)` when the district has no crashes in the window). -/
def crashTriple (cs : List Crash) (d : String) : ℕ × ℕ × ℕ :=
  let g := cs.filter (fun c => c.district = d)
  (g.length, (g.filter (fun c => c.severity = "A1")).length,
    (g.filter (fun c => c.severity = "A2")).length)

/-- One recommendation entry before ranking (`rank` is the placeholder 0,
set after sorting). -/
def mkSiteRec (topic_code : String) (crashesW : List Crash)
    (p : String × ℕ) : SiteRec :=
  let district := p.1
  let ticket_count := p.2
  let t3 := crashTriple crashesW district
  let vpi := calculate_vpi ticket_count topic_code
  let cri := calculate_cri t3.1 t3.2.1 t3.2.2
  let score := calculate_score vpi cri topic_code
  let coords := (recsDistrictCoords.lookup district).getD DEFAULT_COORDS
  { rank := 0
    district := district
    latitude := coords.1
    longitude := coords.2
    metrics := ⟨pyRound2 vpi, pyRound2 cri, pyRound2 score⟩
    statistics := ⟨ticket_count, t3.1, t3.2.1, t3.2.2⟩ }

/-- Stable insertion of an element into a list sorted by descending
`metrics.score`: the element goes after every already-placed entry whose
score is ≥ its own (the stability of Python's `list.sort`). -/
def insertDesc (x : SiteRec) : List SiteRec → List SiteRec
  | [] => [x]
  | y :: ys =>
    if y.metrics.score < x.metrics.score then x :: y :: ys
    else y :: insertDesc x ys

/-- `recommendations.sort(key=score, reverse=True)`: stable descending
sort by the rounded score. -/
def sortDesc (l : List SiteRec) : List SiteRec :=
  l.foldl (fun acc x => insertDesc x acc) []

/-- `for i, rec in enumerate(recommendations[:5]): rec['rank'] = i + 1`. -/
def assignRanks (l : List SiteRec) : List SiteRec :=
  l.enum.map fun p => { p.2 with rank := p.1 + 1 }

/-- Inverse of `daysFromCivil`: civil date of a day number. -/
def civilFromDays (z : ℕ) : PyDate :=
  let era := z / 146097
  let doe := z % 146097
  let yoe := (doe - doe / 1460 + doe / 36524 - doe / 146096) / 365
  let y := yoe + era * 400
  let doy := doe - (365 * yoe + yoe / 4 - yoe / 100)
  let mp := (5 * doy + 2) / 153
  let d := doy - (153 * mp + 2) / 5 + 1
  let m := if mp < 10 then mp + 3 else mp - 9
  ⟨if m ≤ 2 then y + 1 else y, m, d⟩

/-- `end_date - timedelta(days=days)`. -/
def dateSubDays (d : PyDate) (n : ℕ) : PyDate :=
  civilFromDays (daysFromCivil d.year d.month d.day - n)

/-- The response of the top-5 query (period echo fields omitted). -/
structure Top5Response where
  topic_code : String
  recommendations : List SiteRec
  total_sites : ℕ
deriving DecidableEq, Repr

/-- The candidate list of `get_top5_recommendations`: filter and group the
tickets of the trailing window per district, join the per-district crash
severity counts and score each district.  `end_date` stands for
`datetime.now().date()`. -/
def top5Candidates (col : Ticket → Bool) (topic_code : String)
    (shift_id : Option String) (days : ℕ) (end_date : PyDate)
    (tickets : List Ticket) (crashes : List Crash) : List SiteRec :=
  let start_date := dateSubDays end_date days
  let matched := tickets.filter (ticketMatches col shift_id start_date end_date)
  let district_stats := ticketDistrictStats matched
  let crashesW := crashes.filter fun c =>
    PyDate.leb start_date c.occurred_date && PyDate.leb c.occurred_date end_date
  (district_stats.filter (fun p => p.1 ≠ "")).map (mkSiteRec topic_code crashesW)

/-- `get_top5_recommendations` proper: validate the topic, build the
candidate list, sort by descending rounded score, assign ranks 1..5 and
truncate to the first 5. -/
def get_top5_recommendations (topic_code : String) (shift_id : Option String)
    (days : ℕ) (end_date : PyDate) (tickets : List Ticket)
    (crashes : List Crash) : Except Unit Top5Response :=
  match topicColumn? topic_code with
  | none => .error ()
  | some col =>
    let recs := top5Candidates col topic_code shift_id days end_date tickets
      crashes
    let sorted := sortDesc recs
    .ok { topic_code := topic_code
          recommendations := assignRanks (sorted.take 5)
          total_sites := recs.length }

/-! ## Theorems for the claims -/

/-- C1: For every topic in {DUI, RED_LIGHT, DANGEROUS_DRIVING} and all
non-negative counts, `calculate_vpi` multiplies the ticket count by the
topic weight 10.0 / 2.0 / 1.5, `calculate_cri` is
crash·1.0 + A1·5.0 + A2·2.0, and `calculate_score` is α·VPI + β·CRI with
(α, β) = (0.6, 0.4), (0.5, 0.5), (0.4, 0.6) per topic; at topic DUI with
ticket_count = 10, crash_count = 2, a1 = 0, a2 = 1 the results are
vpi = 100.0, cri = 4.0, score = 61.6. -/
theorem C1_scoring_formulas :
    (∀ n : ℕ,
      calculate_vpi n "DUI" = (n : ℚ) * 10 ∧
      calculate_vpi n "RED_LIGHT" = (n : ℚ) * 2 ∧
      calculate_vpi n "DANGEROUS_DRIVING" = (n : ℚ) * (3/2)) ∧
    (∀ c a1 a2 : ℕ,
      calculate_cri c a1 a2 = (c : ℚ) * 1 + (a1 : ℚ) * 5 + (a2 : ℚ) * 2) ∧
    (∀ vpi cri : ℚ,
      calculate_score vpi cri "DUI" = (6/10) * vpi + (4/10) * cri ∧
      calculate_score vpi cri "RED_LIGHT" = (5/10) * vpi + (5/10) * cri ∧
      calculate_score vpi cri "DANGEROUS_DRIVING" = (4/10) * vpi + (6/10) * cri) ∧
    calculate_vpi 10 "DUI" = 100 ∧
    calculate_cri 2 0 1 = 4 ∧
    calculate_score (calculate_vpi 10 "DUI") (calculate_cri 2 0 1) "DUI" = 616/10 := by
  refine ⟨fun n => ⟨?_, ?_, ?_⟩, fun c a1 a2 => rfl, fun vpi cri => ⟨?_, ?_, ?_⟩,
    ?_, ?_, ?_⟩ <;>
    · simp [calculate_vpi, calculate_score, calculate_cri, vpiWeights,
        scoreWeights, List.lookup] <;> norm_num

/-- C6 counterexample: the claim says an empty or null code yields all
three flags false regardless of the name, but an empty (non-null) code
with a DUI keyword in the name sets the dui flag. -/
theorem C6_counterexample :
    (classify_violation_topic (.val "") (.val "酒駕")).dui = true := by decide

/-- C6 (amended): a *null* code yields all-false regardless of the name;
for any string code (including the empty string) each flag is true iff the
stripped code starts with one of that topic's prefixes, or (red-light and
dangerous only) starts with one of its alternate codes, or the name
contains one of its keywords — so an empty code can still be flagged
through name keywords.  Multiple flags may hold simultaneously. -/
theorem C6_topic_classification (name : PyCell) (s : String) :
    classify_violation_topic .nan name = ⟨false, false, false⟩ ∧
    classify_violation_topic .absent name = ⟨false, false, false⟩ ∧
    (let c := pyStrip s
     let n := if pdIsna name then "" else pyStr name
     ((classify_violation_topic (.val s) name).dui = true ↔
        (∃ p ∈ TOPIC_RULES_DUI.prefixes, strStartsWith c p = true) ∨
        (∃ k ∈ TOPIC_RULES_DUI.keywords, strContains n k = true)) ∧
     ((classify_violation_topic (.val s) name).red_light = true ↔
        (∃ p ∈ TOPIC_RULES_RED_LIGHT.prefixes, strStartsWith c p = true) ∨
        (∃ a ∈ TOPIC_RULES_RED_LIGHT.codes, strStartsWith c a = true) ∨
        (∃ k ∈ TOPIC_RULES_RED_LIGHT.keywords, strContains n k = true)) ∧
     ((classify_violation_topic (.val s) name).dangerous = true ↔
        (∃ p ∈ TOPIC_RULES_DANGEROUS.prefixes, strStartsWith c p = true) ∨
        (∃ a ∈ TOPIC_RULES_DANGEROUS.codes, strStartsWith c a = true) ∨
        (∃ k ∈ TOPIC_RULES_DANGEROUS.keywords, strContains n k = true))) := by
  refine ⟨rfl, rfl, ?_, ?_, ?_⟩ <;>
    simp [classify_violation_topic, topicHit, TOPIC_RULES_DUI,
      TOPIC_RULES_RED_LIGHT, TOPIC_RULES_DANGEROUS, List.any_eq_true,
      pdIsna, pyStr, or_assoc]

/-- The concrete coordinate-free ticket row of the C8 counterexample. -/
def c8TicketRow : Row :=
  [("舉發單號", .val "SZ001"), ("違規時間(出)", .val "114/1/8 21:00"),
   ("違規地點一", .val "臺南市永康區中山路")]

/-- C8 counterexample: the claim covers crash and ticket rows alike, but
`import_ticket_file` stores `None` coordinates for a ticket row without
coordinate columns even when its district is in the centroid table — no
jittered centroid is substituted. -/
theorem C8_counterexample :
    ∃ t ∈ (import_ticket_file "B" [] [c8TicketRow]).db,
      importDistrictCoords.lookup (cleanDistrict t.district) ≠ none ∧
      t.latitude = none ∧ t.longitude = none := by
  refine ⟨buildTicket "B" c8TicketRow "SZ001" ⟨2025, 1, 8, 21, 0, 0⟩, ?_, ?_, rfl, rfl⟩
  · show _ ∈ (import_ticket_file "B" [] [c8TicketRow]).db
    decide
  · decide

/-- The exact-lookup branch of `get_district_coordinates`: a non-empty
district whose cleaned name is a key of the table gets the centroid plus
one fresh draw per coordinate, advancing the cursor by two. -/
theorem get_district_coordinates_lookup (rng : ℕ → ℚ) (ctr : ℕ)
    (d : String) (coords : ℚ × ℚ) (hne : d ≠ "")
    (hc : importDistrictCoords.lookup (cleanDistrict d) = some coords) :
    get_district_coordinates rng ctr d =
      ((some (coords.1 + rng ctr), some (coords.2 + rng (ctr + 1))), ctr + 2) := by
  unfold get_district_coordinates
  simp [hne, hc]


/-- C8 (amended): the jittered-centroid fallback applies to *crash*
records only.  A crash row without coordinate columns whose resolved
district cleans to a key of the centroid table stores, in each
coordinate, that district's centroid component plus a fresh uniform draw
bounded by ±0.003 (latitude and longitude come from two separate
`get_district_coordinates` calls); a ticket row without coordinate
columns stores null coordinates instead of a jittered centroid. -/
theorem C8_coordinates_fallback
    (rng : ℕ → ℚ) (hr : ∀ n, -(3/1000) ≤ rng n ∧ rng n ≤ 3/1000)
    (ctr : ℕ) (batch case_id : String) (row : Row) (occurred : PyDateTime)
    (crash : Crash) (ctr' : ℕ)
    (hb : buildCrash rng ctr batch row case_id occurred = .ok (crash, ctr'))
    (hlat : pdIsna (rowGet row "緯度") = true)
    (hlng : pdIsna (rowGet row "經度") = true)
    (coords : ℚ × ℚ) (hne : crash.district ≠ "")
    (hc : importDistrictCoords.lookup (cleanDistrict crash.district) = some coords) :
    (∃ δ, -(3/1000) ≤ δ ∧ δ ≤ 3/1000 ∧ crash.latitude = some (coords.1 + δ)) ∧
    (∃ δ, -(3/1000) ≤ δ ∧ δ ≤ 3/1000 ∧ crash.longitude = some (coords.2 + δ)) ∧
    (∀ (b tn : String) (trow : Row) (dt : PyDateTime),
      pdIsna (rowGet trow "緯度") = true → pdIsna (rowGet trow "經度") = true →
      (buildTicket b trow tn dt).latitude = none ∧
        (buildTicket b trow tn dt).longitude = none) := by
  refine ?_
  unfold buildCrash at hb
  cases hAg : crashAgeInfo row occurred with
  | error e =>
    rw [hAg] at hb
    simp [Except.bind] at hb
  | ok ag =>
    rw [hAg] at hb
    simp only [bind, pure, Except.instMonad, Except.bind, Except.pure, hlat, hlng,
      Bool.not_true, Bool.false_eq_true, if_false, Except.ok.injEq,
      Prod.mk.injEq] at hb
    obtain ⟨hcr, hctr⟩ := hb
    subst hcr
    refine ⟨⟨rng ctr, (hr ctr).1, (hr ctr).2, ?_⟩,
            ⟨rng (ctr + 3), (hr (ctr + 3)).1, (hr (ctr + 3)).2, ?_⟩, ?_⟩
    · show (get_district_coordinates rng ctr
        (deidentify_address (resolveFirstCell crashLocCols row)).1).1.1 =
          some (coords.1 + rng ctr)
      rw [get_district_coordinates_lookup rng ctr _ coords hne hc]
    · show (get_district_coordinates rng
        (get_district_coordinates rng ctr
          (deidentify_address (resolveFirstCell crashLocCols row)).1).2
        (deidentify_address (resolveFirstCell crashLocCols row)).1).1.2 =
          some (coords.2 + rng (ctr + 3))
      rw [get_district_coordinates_lookup rng ctr _ coords hne hc]
      rw [show ((((some (coords.1 + rng ctr), some (coords.2 + rng (ctr + 1))), ctr + 2) :
          (Option ℚ × Option ℚ) × ℕ).2) = ctr + 2 from rfl]
      rw [get_district_coordinates_lookup rng (ctr + 2) _ coords hne hc]
    · intro b tn trow dt h1 h2
      constructor
      · simp only [buildTicket, h1, Bool.not_true, Bool.false_eq_true, if_false]
      · simp only [buildTicket, h2, Bool.not_true, Bool.false_eq_true, if_false]

/-- The concrete coordinate-free crash row of the C8 witness. -/
def c8CrashRow : Row :=
  [("案件編號", .val "K8"), ("發生時間", .val "114/1/8 9:30:00"),
   ("發生地點", .val "臺南市永康區中山路")]

/-- Witness instantiating `C8_coordinates_fallback` on a concrete crash
row resolving to district 永康區 with the zero jitter stream. -/
theorem C8_coordinates_fallback_witness :
    ∃ (crash : Crash) (ctr' : ℕ),
      buildCrash (fun _ => 0) 0 "B" c8CrashRow "K8" ⟨2025, 1, 8, 9, 30, 0⟩ =
        .ok (crash, ctr') ∧
      ((∃ δ, -(3/1000) ≤ δ ∧ δ ≤ 3/1000 ∧
          crash.latitude = some (((23.0264 : ℚ), (120.2567 : ℚ)).1 + δ)) ∧
       (∃ δ, -(3/1000) ≤ δ ∧ δ ≤ 3/1000 ∧
          crash.longitude = some (((23.0264 : ℚ), (120.2567 : ℚ)).2 + δ)) ∧
       (∀ (b tn : String) (trow : Row) (dt : PyDateTime),
         pdIsna (rowGet trow "緯度") = true → pdIsna (rowGet trow "經度") = true →
         (buildTicket b trow tn dt).latitude = none ∧
           (buildTicket b trow tn dt).longitude = none)) :=
  ⟨_, _, rfl, C8_coordinates_fallback (fun _ => 0) (fun _ => by norm_num) 0 "B" "K8"
    c8CrashRow ⟨2025, 1, 8, 9, 30, 0⟩ _ _ rfl rfl rfl ((23.0264 : ℚ), (120.2567 : ℚ))
    (by decide) rfl⟩

/-- Every branch of the crash row loop leaves the `total` counter (set
from the row count up front) unchanged. -/
theorem crashStep_total (rng : ℕ → ℚ) (batch : String) (s : CrashState)
    (p : ℕ × Row) : (crashStep rng batch s p).stats.total = s.stats.total := by
  obtain ⟨idx, row⟩ := p
  unfold crashStep
  repeat' split
  all_goals rfl

/-- Folding the crash row loop preserves the `total` counter. -/
theorem crashFold_total (rng : ℕ → ℚ) (batch : String) :
    ∀ (l : List (ℕ × Row)) (s : CrashState),
      (l.foldl (crashStep rng batch) s).stats.total = s.stats.total := by
  intro l
  induction l with
  | nil => intro s; rfl
  | cons p t ih =>
    intro s
    rw [List.foldl_cons, ih, crashStep_total]

/-- C9 counterexample: the claim covers crash and ticket imports alike,
but the ticket import has no blank-row fast path: a row with a single
non-empty cell and no resolvable ticket number increments the error
counter and records a message instead of being silently skipped. -/
theorem C9_counterexample :
    nonEmptyCount [("備註", PyCell.val "x")] < 3 ∧
    (import_ticket_file "B" [] [[("備註", PyCell.val "x")]]).stats.errors = 1 ∧
    (import_ticket_file "B" [] [[("備註", PyCell.val "x")]]).stats.new = 0 ∧
    (import_ticket_file "B" [] [[("備註", PyCell.val "x")]]).stats.skipped = 0 ∧
    (import_ticket_file "B" [] [[("備註", PyCell.val "x")]]).msgs =
      ["第 2 列：缺少舉發單號"] := by
  refine ⟨by decide, by decide, by decide, by decide, by decide⟩

/-- C9 (amended): in the *crash* import a row with no resolvable case
number and fewer than 3 non-empty cells is silently skipped (state
unchanged), and with 3 or more non-empty cells it increments the error
counter and appends a message carrying spreadsheet row number `idx + 2`;
the returned message list is truncated to the first 10; every row is
processed by the fold and `total` always equals the row count (no
row-level failure aborts the import).  The *ticket* import instead counts
every row without a ticket number as an error regardless of how many
cells are empty. -/
theorem C9_row_error_policy (rng : ℕ → ℚ) (batch : String) (s : CrashState)
    (ts : TicketState) (idx : ℕ) (row trow : Row)
    (hnk : resolveCaseId row = none)
    (htn : pyStrip (pyStr (rowGetD trow "舉發單號" (.val ""))) = "") :
    (nonEmptyCount row < 3 → crashStep rng batch s (idx, row) = s) ∧
    (¬ nonEmptyCount row < 3 →
      crashStep rng batch s (idx, row) =
        { s with stats := { s.stats with errors := s.stats.errors + 1 }
                 msgs := s.msgs ++
                   ["第 " ++ toString (idx + 2) ++ " 列：缺少案件編號"] }) ∧
    (ticketStep batch ts (idx, trow) =
      { ts with stats := { ts.stats with errors := ts.stats.errors + 1 }
                msgs := ts.msgs ++
                  ["第 " ++ toString (idx + 2) ++ " 列：缺少舉發單號"] }) ∧
    (∀ (db0 : List Crash) (rows : List Row),
      (import_crash_file rng batch db0 rows).stats.total = rows.length ∧
      ((import_crash_file rng batch db0 rows).msgs.take 10).length ≤ 10) := by
  refine ⟨?_, ?_, ?_, ?_⟩
  · intro hlt
    unfold crashStep
    simp [hnk, hlt]
  · intro hge
    unfold crashStep
    simp [hnk, hge]
  · unfold ticketStep
    simp [htn]
  · intro db0 rows
    constructor
    · unfold import_crash_file
      rw [crashFold_total]
    · rw [List.length_take]
      exact min_le_left _ _

/-- Witness instantiating `C9_row_error_policy`: a one-cell keyless row is
silently skipped by the crash import (state unchanged). -/
theorem C9_row_error_policy_witness :
    crashStep (fun _ => 0) "B" ⟨[], ⟨1, 0, 0, 0⟩, [], 0⟩
      (0, [("a", PyCell.val "x")]) = ⟨[], ⟨1, 0, 0, 0⟩, [], 0⟩ :=
  (C9_row_error_policy (fun _ => 0) "B" ⟨[], ⟨1, 0, 0, 0⟩, [], 0⟩
    ⟨[], ⟨1, 0, 0, 0⟩, 0, 0, 0, []⟩ 0 [("a", PyCell.val "x")]
    [("a", PyCell.val "x")] (by decide) (by decide)).1 (by decide)

/-- C7 counterexample: "114/2/30" matches the date pattern
(year-offset 114, month 2, day 30) but `datetime(...)` raises
`ValueError` on the calendar-invalid day, so `parse_roc_datetime` raises
instead of returning a date-time or `None`. -/
theorem C7_counterexample :
    matchPattern3 (rocStripped (.val "114/2/30")) = some (114, 2, 30) ∧
    parse_roc_datetime (.val "114/2/30") = .error () := by
  exact ⟨by decide, rfl⟩

/-- C7 (amended): `parse_roc_datetime` returns `None` exactly when the
input is null/empty or none of the three patterns matches the stripped
string; when the first pattern that matches yields calendar-valid
components it returns the corresponding date-time (never raising), and
when the matched components are calendar-invalid (e.g. month 13 or
February 30) it raises `ValueError` instead of returning a result. -/
theorem C7_parse_totality (c : PyCell) :
    (parse_roc_datetime c = .ok none ↔
      (pdIsna c = true ∨ pyTruthy c = false ∨
        (matchPattern1 (rocStripped c) = none ∧
         matchPattern2 (rocStripped c) = none ∧
         matchPattern3 (rocStripped c) = none))) ∧
    (∀ y mo d h mi s, pdIsna c = false → pyTruthy c = true →
      matchPattern1 (rocStripped c) = some (y, mo, d, h, mi, s) →
      (datetimeOk (y + 1911) mo d h mi s = true →
        parse_roc_datetime c = .ok (some ⟨y + 1911, mo, d, h, mi, s⟩)) ∧
      (datetimeOk (y + 1911) mo d h mi s = false →
        parse_roc_datetime c = .error ())) ∧
    (∀ y mo d h mi, pdIsna c = false → pyTruthy c = true →
      matchPattern1 (rocStripped c) = none →
      matchPattern2 (rocStripped c) = some (y, mo, d, h, mi) →
      (datetimeOk (y + 1911) mo d h mi 0 = true →
        parse_roc_datetime c = .ok (some ⟨y + 1911, mo, d, h, mi, 0⟩)) ∧
      (datetimeOk (y + 1911) mo d h mi 0 = false →
        parse_roc_datetime c = .error ())) ∧
    (∀ y mo d, pdIsna c = false → pyTruthy c = true →
      matchPattern1 (rocStripped c) = none →
      matchPattern2 (rocStripped c) = none →
      matchPattern3 (rocStripped c) = some (y, mo, d) →
      (datetimeOk (y + 1911) mo d 0 0 0 = true →
        parse_roc_datetime c = .ok (some ⟨y + 1911, mo, d, 0, 0, 0⟩)) ∧
      (datetimeOk (y + 1911) mo d 0 0 0 = false →
        parse_roc_datetime c = .error ())) := by
  refine ⟨?_, ?_, ?_, ?_⟩
  · unfold parse_roc_datetime
    by_cases hna : pdIsna c = true
    · simp [hna]
    · simp only [Bool.not_eq_true] at hna
      by_cases htr : pyTruthy c = true
      · simp only [hna, htr, Bool.not_true, Bool.or_false, if_false]
        cases h1 : matchPattern1 (rocStripped c) with
        | some v =>
          obtain ⟨y, mo, d, h, mi, s⟩ := v
          by_cases hok : datetimeOk (y + 1911) mo d h mi s = true
          · simp [h1, datetimeNew, hok, hna, htr, bind, pure,
              Except.instMonad, Except.bind, Except.pure]
          · simp [h1, datetimeNew, hok, hna, htr, bind, pure,
              Except.instMonad, Except.bind, Except.pure]
        | none =>
          cases h2 : matchPattern2 (rocStripped c) with
          | some v =>
            obtain ⟨y, mo, d, h, mi⟩ := v
            by_cases hok : datetimeOk (y + 1911) mo d h mi 0 = true
            · simp [h1, h2, datetimeNew, hok, hna, htr, bind, pure,
                Except.instMonad, Except.bind, Except.pure]
            · simp [h1, h2, datetimeNew, hok, hna, htr, bind, pure,
                Except.instMonad, Except.bind, Except.pure]
          | none =>
            cases h3 : matchPattern3 (rocStripped c) with
            | some v =>
              obtain ⟨y, mo, d⟩ := v
              by_cases hok : datetimeOk (y + 1911) mo d 0 0 0 = true
              · simp [h1, h2, h3, datetimeNew, hok, hna, htr, bind, pure,
                  Except.instMonad, Except.bind, Except.pure]
              · simp [h1, h2, h3, datetimeNew, hok, hna, htr, bind, pure,
                  Except.instMonad, Except.bind, Except.pure]
            | none => simp [h1, h2, h3, hna, htr]
      · simp only [Bool.not_eq_true] at htr
        simp [hna, htr]
  · intro y mo d h mi s hna htr h1
    have h1d := h1
    unfold parse_roc_datetime
    constructor <;> intro hok <;>
      simp [hna, htr, h1d, datetimeNew, hok, bind, pure, Except.instMonad,
        Except.bind, Except.pure]
  · intro y mo d h mi hna htr h1 h2
    have h1d := h1
    have h2d := h2
    unfold parse_roc_datetime
    constructor <;> intro hok <;>
      simp [hna, htr, h1d, h2d, datetimeNew, hok, bind, pure, Except.instMonad,
        Except.bind, Except.pure]
  · intro y mo d hna htr h1 h2 h3
    have h1d := h1
    have h2d := h2
    have h3d := h3
    unfold parse_roc_datetime
    constructor <;> intro hok <;>
      simp [hna, htr, h1d, h2d, h3d, datetimeNew, hok, bind, pure,
        Except.instMonad, Except.bind, Except.pure]

/-- Witness instantiating `C7_parse_totality` on "114/1/8": only the
date-only pattern matches and the parse returns 2025-01-08 midnight. -/
theorem C7_parse_totality_witness :
    parse_roc_datetime (.val "114/1/8") = .ok (some ⟨2025, 1, 8, 0, 0, 0⟩) :=
  ((C7_parse_totality (.val "114/1/8")).2.2.2 114 1 8 (by decide) (by decide)
    (by decide) (by decide) (by decide)).1 (by decide)

/-! ### Lemmas about the date-pattern matchers -/

/-- A digit is not a date separator. -/
theorem digit_sep_false {c : Char} (h : isDigitCh c = true) :
    (c = '/' || c = '-' : Bool) = false := by
  have h1 : c ≠ '/' := by intro e; subst e; exact absurd h (by decide)
  have h2 : c ≠ '-' := by intro e; subst e; exact absurd h (by decide)
  simp [h1, h2]

/-- A digit is not a colon. -/
theorem digit_colon_false {c : Char} (h : isDigitCh c = true) :
    (decide (c = ':')) = false := by
  have h1 : c ≠ ':' := by intro e; subst e; exact absurd h (by decide)
  simp [h1]

/-- A digit is not whitespace. -/
theorem digit_not_ws {c : Char} (h : isDigitCh c = true) : isWs c = false := by
  cases hw : isWs c with
  | false => rfl
  | true =>
    exfalso
    simp only [isWs, Char.isWhitespace] at hw
    simp only [Bool.or_eq_true, decide_eq_true_eq] at hw
    rcases hw with ((e | e) | e) | e <;> (subst e; exact absurd h (by decide))

/-- Whitespace is not a digit. -/
theorem ws_not_digit {c : Char} (h : isWs c = true) : isDigitCh c = false := by
  cases hd : isDigitCh c with
  | false => rfl
  | true => rw [digit_not_ws hd] at h; cases h

/-- `all` restricted to a prefix. -/
theorem all_take_of_all {p : Char → Bool} {l : List Char}
    (h : l.all p = true) (n : ℕ) : (l.take n).all p = true := by
  rw [List.all_eq_true] at h ⊢
  exact fun c hc => h c (List.take_subset n l hc)

/-- A successful exact-digit match on a digit prefix. -/
theorem takeDigitsExact_eq {n : ℕ} {ds z : List Char}
    (hall : ds.all isDigitCh = true) (hn : n ≤ ds.length) :
    takeDigitsExact n (ds ++ z) =
      some (digitsToNat (ds.take n), ds.drop n ++ z) := by
  unfold takeDigitsExact
  rw [List.take_append_of_le_length hn, List.drop_append_of_le_length hn]
  have h1 : (ds.take n).length = n := by rw [List.length_take]; omega
  simp [h1, all_take_of_all hall n]

/-- Exact-digit match fails on a too-short input. -/
theorem takeDigitsExact_short {n : ℕ} {cs : List Char} (h : cs.length < n) :
    takeDigitsExact n cs = none := by
  unfold takeDigitsExact
  have hne : (cs.take n).length ≠ n := by rw [List.length_take]; omega
  apply if_neg
  simp only [Bool.and_eq_true, decide_eq_true_eq]
  rintro ⟨hl, -⟩
  exact hne hl

/-- Exact-digit match fails when it would have to cross a non-digit. -/
theorem takeDigitsExact_stop {n : ℕ} {ds z : List Char} {c : Char}
    (hall : ds.all isDigitCh = true) (hc : isDigitCh c = false)
    (hn : ds.length < n) :
    takeDigitsExact n (ds ++ c :: z) = none := by
  unfold takeDigitsExact
  rw [List.take_append_eq_append_take]
  have h1 : ds.take n = ds := List.take_of_length_le (le_of_lt hn)
  obtain ⟨k, hk⟩ : ∃ k, n - ds.length = k + 1 :=
    ⟨n - ds.length - 1, by omega⟩
  rw [h1, hk]
  simp [List.all_append, hc]

/-- Elements of a dropped suffix keep the `all` property. -/
theorem all_drop_of_all {p : Char → Bool} {l : List Char}
    (h : l.all p = true) (n : ℕ) : (l.drop n).all p = true := by
  rw [List.all_eq_true] at h ⊢
  exact fun c hc => h c (List.drop_subset n l hc)

/-- `takeDigitsExact` on an input that is exactly a digit block or longer. -/
theorem takeDigitsExact_eq' {n : ℕ} {ds : List Char}
    (hall : ds.all isDigitCh = true) (hn : n ≤ ds.length) :
    takeDigitsExact n ds = some (digitsToNat (ds.take n), ds.drop n) := by
  have h := takeDigitsExact_eq (z := []) hall hn
  simpa using h

/-- Digit-block members are digits. -/
theorem drop_head_digit {ds : List Char} {n : ℕ} {d : Char} {r : List Char}
    (hall : ds.all isDigitCh = true) (hd : ds.drop n = d :: r) :
    isDigitCh d = true := by
  have hmemd : d ∈ ds := List.drop_subset n ds (hd ▸ List.mem_cons_self d r)
  exact (List.all_eq_true.1 hall) d hmemd

/-- The greedy numeric group with delimiter: on input `ys ++ s1 :: z` with
`ys` all digits, a non-digit delimiter accepted by `p`, and `ys.length`
among the tried lengths, the group consumes exactly `ys` and `s1`. -/
theorem pNumSep_spec (lens : List ℕ) (p : Char → Bool) (ys z : List Char)
    (s1 : Char) (hall : ys.all isDigitCh = true) (hs1 : isDigitCh s1 = false)
    (hp : p s1 = true) (hpd : ∀ c, isDigitCh c = true → p c = false)
    (hmem : ys.length ∈ lens) :
    pNumSep lens p (ys ++ s1 :: z) = some (digitsToNat ys, z) := by
  induction lens with
  | nil => cases hmem
  | cons n t ih =>
    show List.findSome? _ (n :: t) = _
    rw [List.findSome?_cons]
    rcases lt_trichotomy n ys.length with hlt | heq | hgt
    · rw [takeDigitsExact_eq hall (le_of_lt hlt)]
      obtain ⟨d, r, hd⟩ : ∃ d r, ys.drop n = d :: r := by
        cases hdrop : ys.drop n with
        | nil =>
          exfalso
          have := congrArg List.length hdrop
          simp only [List.length_drop, List.length_nil] at this
          omega
        | cons d r => exact ⟨d, r, rfl⟩
      rw [hd]
      simp only [List.cons_append, hpd d (drop_head_digit hall hd),
        Bool.false_eq_true, if_false]
      exact ih (List.mem_of_ne_of_mem (by omega) hmem)
    · subst heq
      rw [takeDigitsExact_eq hall le_rfl, List.take_length, List.drop_length,
        List.nil_append]
      simp [hp]
    · rw [takeDigitsExact_stop hall hs1 hgt]
      exact ih (List.mem_of_ne_of_mem (by omega) hmem)

/-- `takeWhile` of an all-satisfying block followed by a stopper. -/
theorem takeWhile_block {p : Char → Bool} {l1 l2 : List Char}
    (h1 : l1.all p = true) (h2 : ∀ c, l2.head? = some c → p c = false) :
    (l1 ++ l2).takeWhile p = l1 := by
  induction l1 with
  | nil =>
    cases l2 with
    | nil => rfl
    | cons c t => simp [List.takeWhile_cons, h2 c rfl]
  | cons a t ih =>
    simp only [List.all_cons, Bool.and_eq_true] at h1
    simp [List.takeWhile_cons, h1.1, ih h1.2]

/-- The greedy numeric group with `\s+`: on `ds ++ (wsL ++ z)` with the
whitespace block non-empty and `z` starting with a non-whitespace
character, the group consumes the digits and the whitespace. -/
theorem pNumWs_spec (lens : List ℕ) (ds wsL z : List Char)
    (hall : ds.all isDigitCh = true) (hws : wsL.all isWs = true)
    (hne : wsL ≠ []) (hz : ∀ c, z.head? = some c → isWs c = false)
    (hmem : ds.length ∈ lens) :
    pNumWs lens (ds ++ (wsL ++ z)) = some (digitsToNat ds, z) := by
  induction lens with
  | nil => cases hmem
  | cons n t ih =>
    show List.findSome? _ (n :: t) = _
    rw [List.findSome?_cons]
    rcases lt_trichotomy n ds.length with hlt | heq | hgt
    · rw [takeDigitsExact_eq hall (le_of_lt hlt)]
      obtain ⟨d, r, hd⟩ : ∃ d r, ds.drop n = d :: r := by
        cases hdrop : ds.drop n with
        | nil =>
          exfalso
          have := congrArg List.length hdrop
          simp only [List.length_drop, List.length_nil] at this
          omega
        | cons d r => exact ⟨d, r, rfl⟩
      rw [hd]
      have htw : ((d :: (r ++ (wsL ++ z))).takeWhile isWs) = [] :=
        List.takeWhile_cons_of_neg
          (by simp [digit_not_ws (drop_head_digit hall hd)])
      simp only [List.cons_append, htw, List.length_nil]
      rw [if_neg (by omega)]
      exact ih (List.mem_of_ne_of_mem (by omega) hmem)
    · subst heq
      rw [takeDigitsExact_eq hall le_rfl, List.take_length, List.drop_length,
        List.nil_append]
      have htw : ((wsL ++ z).takeWhile isWs) = wsL := takeWhile_block hws hz
      have hdr : (wsL ++ z).drop wsL.length = z := List.drop_left wsL z
      have hlen : 1 ≤ wsL.length := by
        cases wsL with
        | nil => exact absurd rfl hne
        | cons a t => simp
      simp [htw, hdr, hlen]
    · obtain ⟨w0, wr, hw⟩ : ∃ w0 wr, wsL = w0 :: wr := by
        cases hws0 : wsL with
        | nil => exact absurd hws0 hne
        | cons w0 wr => exact ⟨w0, wr, rfl⟩
      have hw0 : isWs w0 = true := by
        subst hw
        simp only [List.all_cons, Bool.and_eq_true] at hws
        exact hws.1
      have hstop : takeDigitsExact n (ds ++ (wsL ++ z)) = none := by
        rw [hw, List.cons_append]
        exact takeDigitsExact_stop hall (ws_not_digit hw0) hgt
      rw [hstop]
      exact ih (List.mem_of_ne_of_mem (by omega) hmem)

/-- The final numeric group on a pure-digit tail: with the tried lengths
strictly decreasing, the first length that fits is the tail's length. -/
theorem pNumEnd_spec (lens : List ℕ) (ds : List Char)
    (hall : ds.all isDigitCh = true) (hmem : ds.length ∈ lens)
    (hsorted : List.Pairwise (· > ·) lens) :
    pNumEnd lens ds = some (digitsToNat ds) := by
  induction lens with
  | nil => cases hmem
  | cons n t ih =>
    show List.findSome? _ (n :: t) = _
    rw [List.findSome?_cons]
    rw [List.pairwise_cons] at hsorted
    rcases List.mem_cons.1 hmem with heq | hmemt
    · rw [← heq, takeDigitsExact_eq' hall le_rfl, List.take_length]
      simp
    · have hgt : ds.length < n := hsorted.1 _ hmemt
      rw [takeDigitsExact_short hgt]
      exact ih hmemt hsorted.2

/-- The day group of patterns 1 and 2 fails on a pure-digit tail (no
whitespace follows the digits). -/
theorem pNumWs_end_none (lens : List ℕ) (ds : List Char)
    (hall : ds.all isDigitCh = true) :
    pNumWs lens ds = none := by
  induction lens with
  | nil => rfl
  | cons n t ih =>
    show List.findSome? _ (n :: t) = _
    rw [List.findSome?_cons]
    by_cases hn : n ≤ ds.length
    · rw [takeDigitsExact_eq' hall hn]
      have htw : (ds.drop n).takeWhile isWs = [] := by
        cases hdrop : ds.drop n with
        | nil => rfl
        | cons d r =>
          exact List.takeWhile_cons_of_neg
            (by simp [digit_not_ws (drop_head_digit hall hdrop)])
      simp only [htw, List.length_nil]
      rw [if_neg (by omega)]
      exact ih
    · rw [takeDigitsExact_short (by omega)]
      exact ih

/-- The minutes group of pattern 1 fails when the input ends right after
the minute digits (no second colon follows). -/
theorem pNumSep_end_none (lens : List ℕ) (p : Char → Bool) (ds : List Char)
    (hall : ds.all isDigitCh = true)
    (hpd : ∀ c, isDigitCh c = true → p c = false) :
    pNumSep lens p ds = none := by
  induction lens with
  | nil => rfl
  | cons n t ih =>
    show List.findSome? _ (n :: t) = _
    rw [List.findSome?_cons]
    by_cases hn : n ≤ ds.length
    · rw [takeDigitsExact_eq' hall hn]
      cases hdrop : ds.drop n with
      | nil => exact ih
      | cons d r =>
        simp only [hpd d (drop_head_digit hall hdrop), Bool.false_eq_true,
          if_false]
        exact ih
    · rw [takeDigitsExact_short (by omega)]
      exact ih


/-- `dropWhile` is the identity when the head fails the predicate. -/
theorem dropWhile_eq_self_of_head {p : Char → Bool} {cs : List Char}
    (h : ∀ c, cs.head? = some c → p c = false) : cs.dropWhile p = cs := by
  cases cs with
  | nil => rfl
  | cons c t => exact List.dropWhile_cons_of_neg (by simp [h c rfl])

/-- `str.strip()` is the identity on a string with non-whitespace ends. -/
theorem stripChars_eq_self {cs : List Char}
    (h1 : ∀ c, cs.head? = some c → isWs c = false)
    (h2 : ∀ c, cs.getLast? = some c → isWs c = false) :
    stripChars cs = cs := by
  unfold stripChars
  rw [dropWhile_eq_self_of_head h1,
    dropWhile_eq_self_of_head (fun c hc => h2 c (by rwa [List.head?_reverse] at hc)),
    List.reverse_reverse]

/-- Pattern 3 on a date-shaped string returns the three numeric groups. -/
theorem matchPattern3_spec {ys ms ds : List Char} {s1 s2 : Char}
    (hys : ys.all isDigitCh = true) (hysl : ys.length = 2 ∨ ys.length = 3)
    (hms : ms.all isDigitCh = true) (hmsl : ms.length = 1 ∨ ms.length = 2)
    (hds : ds.all isDigitCh = true) (hdsl : ds.length = 1 ∨ ds.length = 2)
    (hs1 : s1 = '/' ∨ s1 = '-') (hs2 : s2 = '/' ∨ s2 = '-') :
    matchPattern3 (ys ++ s1 :: (ms ++ s2 :: ds)) =
      some (digitsToNat ys, digitsToNat ms, digitsToNat ds) := by
  have hs1d : isDigitCh s1 = false := by rcases hs1 with h | h <;> subst h <;> decide
  have hs1p : (s1 = '/' || s1 = '-' : Bool) = true := by
    rcases hs1 with h | h <;> subst h <;> decide
  have hs2d : isDigitCh s2 = false := by rcases hs2 with h | h <;> subst h <;> decide
  have hs2p : (s2 = '/' || s2 = '-' : Bool) = true := by
    rcases hs2 with h | h <;> subst h <;> decide
  have e1 := pNumSep_spec [3, 2] (fun c => c = '/' || c = '-') ys (ms ++ s2 :: ds) s1
    hys hs1d hs1p (fun c hc => digit_sep_false hc)
    (by rcases hysl with h | h <;> simp [h])
  have e2 := pNumSep_spec [2, 1] (fun c => c = '/' || c = '-') ms ds s2
    hms hs2d hs2p (fun c hc => digit_sep_false hc)
    (by rcases hmsl with h | h <;> simp [h])
  have e3 := pNumEnd_spec [2, 1] ds hds
    (by rcases hdsl with h | h <;> simp [h]) (by decide)
  simp [matchPattern3, e1, e2, e3]

/-- A block starting with a digit does not start with whitespace. -/
theorem head_append_digit {hs z : List Char} (hall : hs.all isDigitCh = true)
    (hne : hs ≠ []) : ∀ c, (hs ++ z).head? = some c → isWs c = false := by
  cases hs with
  | nil => exact absurd rfl hne
  | cons h0 t =>
    intro c hc
    simp only [List.cons_append, List.head?_cons, Option.some.injEq] at hc
    subst hc
    exact digit_not_ws (by simp [List.all_cons] at hall; exact hall.1)

/-- Pattern 1 on a full `date H:MM:SS`-shaped string returns all six
numeric groups. -/
theorem matchPattern1_spec {ys ms ds wsL hs mis ss : List Char} {s1 s2 : Char}
    (hys : ys.all isDigitCh = true) (hysl : ys.length = 2 ∨ ys.length = 3)
    (hms : ms.all isDigitCh = true) (hmsl : ms.length = 1 ∨ ms.length = 2)
    (hds : ds.all isDigitCh = true) (hdsl : ds.length = 1 ∨ ds.length = 2)
    (hws : wsL.all isWs = true) (hwne : wsL ≠ [])
    (hhs : hs.all isDigitCh = true) (hhsl : hs.length = 1 ∨ hs.length = 2)
    (hmis : mis.all isDigitCh = true) (hmisl : mis.length = 2)
    (hss : ss.all isDigitCh = true) (hssl : ss.length = 2)
    (hs1 : s1 = '/' ∨ s1 = '-') (hs2 : s2 = '/' ∨ s2 = '-') :
    matchPattern1 (ys ++ s1 :: (ms ++ s2 :: (ds ++ (wsL ++ (hs ++ ':' :: (mis ++ ':' :: ss)))))) =
      some (digitsToNat ys, digitsToNat ms, digitsToNat ds, digitsToNat hs,
        digitsToNat mis, digitsToNat ss) := by
  have hs1d : isDigitCh s1 = false := by rcases hs1 with h | h <;> subst h <;> decide
  have hs1p : (s1 = '/' || s1 = '-' : Bool) = true := by
    rcases hs1 with h | h <;> subst h <;> decide
  have hs2d : isDigitCh s2 = false := by rcases hs2 with h | h <;> subst h <;> decide
  have hs2p : (s2 = '/' || s2 = '-' : Bool) = true := by
    rcases hs2 with h | h <;> subst h <;> decide
  have hhne : hs ≠ [] := by rcases hhsl with h | h <;> exact List.ne_nil_of_length_pos (by omega)
  have e1 := pNumSep_spec [3, 2] (fun c => c = '/' || c = '-') ys
    (ms ++ s2 :: (ds ++ (wsL ++ (hs ++ ':' :: (mis ++ ':' :: ss))))) s1
    hys hs1d hs1p (fun c hc => digit_sep_false hc)
    (by rcases hysl with h | h <;> simp [h])
  have e2 := pNumSep_spec [2, 1] (fun c => c = '/' || c = '-') ms
    (ds ++ (wsL ++ (hs ++ ':' :: (mis ++ ':' :: ss)))) s2
    hms hs2d hs2p (fun c hc => digit_sep_false hc)
    (by rcases hmsl with h | h <;> simp [h])
  have e3 := pNumWs_spec [2, 1] ds wsL (hs ++ ':' :: (mis ++ ':' :: ss))
    hds hws hwne (head_append_digit hhs hhne)
    (by rcases hdsl with h | h <;> simp [h])
  have e4 := pNumSep_spec [2, 1] (· = ':') hs (mis ++ ':' :: ss) ':'
    hhs (by decide) (by decide) (fun c hc => digit_colon_false hc)
    (by rcases hhsl with h | h <;> simp [h])
  have e5 := pNumSep_spec [2] (· = ':') mis ss ':'
    hmis (by decide) (by decide) (fun c hc => digit_colon_false hc)
    (by simp [hmisl])
  have e6 := pNumEnd_spec [2] ss hss (by simp [hssl]) (by decide)
  simp [matchPattern1, e1, e2, e3, e4, e5, e6]

/-- Pattern 2 on a `date H:MM`-shaped string returns the five numeric
groups. -/
theorem matchPattern2_spec {ys ms ds wsL hs mis : List Char} {s1 s2 : Char}
    (hys : ys.all isDigitCh = true) (hysl : ys.length = 2 ∨ ys.length = 3)
    (hms : ms.all isDigitCh = true) (hmsl : ms.length = 1 ∨ ms.length = 2)
    (hds : ds.all isDigitCh = true) (hdsl : ds.length = 1 ∨ ds.length = 2)
    (hws : wsL.all isWs = true) (hwne : wsL ≠ [])
    (hhs : hs.all isDigitCh = true) (hhsl : hs.length = 1 ∨ hs.length = 2)
    (hmis : mis.all isDigitCh = true) (hmisl : mis.length = 2)
    (hs1 : s1 = '/' ∨ s1 = '-') (hs2 : s2 = '/' ∨ s2 = '-') :
    matchPattern2 (ys ++ s1 :: (ms ++ s2 :: (ds ++ (wsL ++ (hs ++ ':' :: mis))))) =
      some (digitsToNat ys, digitsToNat ms, digitsToNat ds, digitsToNat hs,
        digitsToNat mis) := by
  have hs1d : isDigitCh s1 = false := by rcases hs1 with h | h <;> subst h <;> decide
  have hs1p : (s1 = '/' || s1 = '-' : Bool) = true := by
    rcases hs1 with h | h <;> subst h <;> decide
  have hs2d : isDigitCh s2 = false := by rcases hs2 with h | h <;> subst h <;> decide
  have hs2p : (s2 = '/' || s2 = '-' : Bool) = true := by
    rcases hs2 with h | h <;> subst h <;> decide
  have hhne : hs ≠ [] := by rcases hhsl with h | h <;> exact List.ne_nil_of_length_pos (by omega)
  have e1 := pNumSep_spec [3, 2] (fun c => c = '/' || c = '-') ys
    (ms ++ s2 :: (ds ++ (wsL ++ (hs ++ ':' :: mis)))) s1
    hys hs1d hs1p (fun c hc => digit_sep_false hc)
    (by rcases hysl with h | h <;> simp [h])
  have e2 := pNumSep_spec [2, 1] (fun c => c = '/' || c = '-') ms
    (ds ++ (wsL ++ (hs ++ ':' :: mis))) s2
    hms hs2d hs2p (fun c hc => digit_sep_false hc)
    (by rcases hmsl with h | h <;> simp [h])
  have e3 := pNumWs_spec [2, 1] ds wsL (hs ++ ':' :: mis)
    hds hws hwne (head_append_digit hhs hhne)
    (by rcases hdsl with h | h <;> simp [h])
  have e4 := pNumSep_spec [2, 1] (· = ':') hs mis ':'
    hhs (by decide) (by decide) (fun c hc => digit_colon_false hc)
    (by rcases hhsl with h | h <;> simp [h])
  have e5 := pNumEnd_spec [2] mis hmis (by simp [hmisl]) (by decide)
  simp [matchPattern2, e1, e2, e3, e4, e5]

/-- Pattern 1 rejects a date-only string (no whitespace follows the day). -/
theorem matchPattern1_dateOnly_none {ys ms ds : List Char} {s1 s2 : Char}
    (hys : ys.all isDigitCh = true) (hysl : ys.length = 2 ∨ ys.length = 3)
    (hms : ms.all isDigitCh = true) (hmsl : ms.length = 1 ∨ ms.length = 2)
    (hds : ds.all isDigitCh = true)
    (hs1 : s1 = '/' ∨ s1 = '-') (hs2 : s2 = '/' ∨ s2 = '-') :
    matchPattern1 (ys ++ s1 :: (ms ++ s2 :: ds)) = none := by
  have hs1d : isDigitCh s1 = false := by rcases hs1 with h | h <;> subst h <;> decide
  have hs1p : (s1 = '/' || s1 = '-' : Bool) = true := by
    rcases hs1 with h | h <;> subst h <;> decide
  have hs2d : isDigitCh s2 = false := by rcases hs2 with h | h <;> subst h <;> decide
  have hs2p : (s2 = '/' || s2 = '-' : Bool) = true := by
    rcases hs2 with h | h <;> subst h <;> decide
  have e1 := pNumSep_spec [3, 2] (fun c => c = '/' || c = '-') ys (ms ++ s2 :: ds) s1
    hys hs1d hs1p (fun c hc => digit_sep_false hc)
    (by rcases hysl with h | h <;> simp [h])
  have e2 := pNumSep_spec [2, 1] (fun c => c = '/' || c = '-') ms ds s2
    hms hs2d hs2p (fun c hc => digit_sep_false hc)
    (by rcases hmsl with h | h <;> simp [h])
  have e3 := pNumWs_end_none [2, 1] ds hds
  simp [matchPattern1, e1, e2, e3]

/-- Pattern 2 rejects a date-only string. -/
theorem matchPattern2_dateOnly_none {ys ms ds : List Char} {s1 s2 : Char}
    (hys : ys.all isDigitCh = true) (hysl : ys.length = 2 ∨ ys.length = 3)
    (hms : ms.all isDigitCh = true) (hmsl : ms.length = 1 ∨ ms.length = 2)
    (hds : ds.all isDigitCh = true)
    (hs1 : s1 = '/' ∨ s1 = '-') (hs2 : s2 = '/' ∨ s2 = '-') :
    matchPattern2 (ys ++ s1 :: (ms ++ s2 :: ds)) = none := by
  have hs1d : isDigitCh s1 = false := by rcases hs1 with h | h <;> subst h <;> decide
  have hs1p : (s1 = '/' || s1 = '-' : Bool) = true := by
    rcases hs1 with h | h <;> subst h <;> decide
  have hs2d : isDigitCh s2 = false := by rcases hs2 with h | h <;> subst h <;> decide
  have hs2p : (s2 = '/' || s2 = '-' : Bool) = true := by
    rcases hs2 with h | h <;> subst h <;> decide
  have e1 := pNumSep_spec [3, 2] (fun c => c = '/' || c = '-') ys (ms ++ s2 :: ds) s1
    hys hs1d hs1p (fun c hc => digit_sep_false hc)
    (by rcases hysl with h | h <;> simp [h])
  have e2 := pNumSep_spec [2, 1] (fun c => c = '/' || c = '-') ms ds s2
    hms hs2d hs2p (fun c hc => digit_sep_false hc)
    (by rcases hmsl with h | h <;> simp [h])
  have e3 := pNumWs_end_none [2, 1] ds hds
  simp [matchPattern2, e1, e2, e3]

/-- Pattern 1 rejects a `date H:MM` string (no second colon). -/
theorem matchPattern1_noSeconds_none {ys ms ds wsL hs mis : List Char} {s1 s2 : Char}
    (hys : ys.all isDigitCh = true) (hysl : ys.length = 2 ∨ ys.length = 3)
    (hms : ms.all isDigitCh = true) (hmsl : ms.length = 1 ∨ ms.length = 2)
    (hds : ds.all isDigitCh = true) (hdsl : ds.length = 1 ∨ ds.length = 2)
    (hws : wsL.all isWs = true) (hwne : wsL ≠ [])
    (hhs : hs.all isDigitCh = true) (hhsl : hs.length = 1 ∨ hs.length = 2)
    (hmis : mis.all isDigitCh = true)
    (hs1 : s1 = '/' ∨ s1 = '-') (hs2 : s2 = '/' ∨ s2 = '-') :
    matchPattern1 (ys ++ s1 :: (ms ++ s2 :: (ds ++ (wsL ++ (hs ++ ':' :: mis))))) = none := by
  have hs1d : isDigitCh s1 = false := by rcases hs1 with h | h <;> subst h <;> decide
  have hs1p : (s1 = '/' || s1 = '-' : Bool) = true := by
    rcases hs1 with h | h <;> subst h <;> decide
  have hs2d : isDigitCh s2 = false := by rcases hs2 with h | h <;> subst h <;> decide
  have hs2p : (s2 = '/' || s2 = '-' : Bool) = true := by
    rcases hs2 with h | h <;> subst h <;> decide
  have hhne : hs ≠ [] := by rcases hhsl with h | h <;> exact List.ne_nil_of_length_pos (by omega)
  have e1 := pNumSep_spec [3, 2] (fun c => c = '/' || c = '-') ys
    (ms ++ s2 :: (ds ++ (wsL ++ (hs ++ ':' :: mis)))) s1
    hys hs1d hs1p (fun c hc => digit_sep_false hc)
    (by rcases hysl with h | h <;> simp [h])
  have e2 := pNumSep_spec [2, 1] (fun c => c = '/' || c = '-') ms
    (ds ++ (wsL ++ (hs ++ ':' :: mis))) s2
    hms hs2d hs2p (fun c hc => digit_sep_false hc)
    (by rcases hmsl with h | h <;> simp [h])
  have e3 := pNumWs_spec [2, 1] ds wsL (hs ++ ':' :: mis)
    hds hws hwne (head_append_digit hhs hhne)
    (by rcases hdsl with h | h <;> simp [h])
  have e4 := pNumSep_spec [2, 1] (· = ':') hs mis ':'
    hhs (by decide) (by decide) (fun c hc => digit_colon_false hc)
    (by rcases hhsl with h | h <;> simp [h])
  have e5 := pNumSep_end_none [2] (· = ':') mis hmis (fun c hc => digit_colon_false hc)
  simp [matchPattern1, e1, e2, e3, e4, e5]

/-- Calendar validity is preserved when time components are replaced by
in-range ones. -/
theorem datetimeOk_zero_time {y m d h mi s h2 mi2 s2 : ℕ}
    (hok : datetimeOk y m d h mi s = true)
    (hh : h2 ≤ 23) (hmi : mi2 ≤ 59) (hs : s2 ≤ 59) :
    datetimeOk y m d h2 mi2 s2 = true := by
  simp only [datetimeOk, Bool.and_eq_true, decide_eq_true_eq] at hok ⊢
  exact ⟨⟨⟨hok.1.1.1, hh⟩, hmi⟩, hs⟩

/-- `getLast?` of an append with known last element of the right part. -/
theorem getLast?_append_right {l1 l2 : List Char} {c : Char}
    (h : l2.getLast? = some c) : (l1 ++ l2).getLast? = some c := by
  rw [List.getLast?_append, h]; rfl

/-- `getLast?` of a cons with known last element of the tail. -/
theorem getLast?_cons_ne {a c : Char} {l : List Char}
    (h : l.getLast? = some c) : (a :: l).getLast? = some c := by
  rw [← List.singleton_append]; exact getLast?_append_right h

/-- A non-empty all-digit list has a digit last element. -/
theorem getLast?_digit {l : List Char} (hall : l.all isDigitCh = true)
    (hne : l ≠ []) : ∃ c, l.getLast? = some c ∧ isDigitCh c = true := by
  induction l with
  | nil => exact absurd rfl hne
  | cons a t ih =>
    cases t with
    | nil => exact ⟨a, by simp, by simpa [List.all_cons] using hall⟩
    | cons b r =>
      obtain ⟨c, hc, hd⟩ := ih (by simp [List.all_cons] at hall ⊢; exact ⟨hall.2.1, hall.2.2⟩) (by simp)
      exact ⟨c, by rw [List.getLast?_cons_cons]; exact hc, hd⟩

/-- C5: for every string in one of the three accepted shapes whose parsed
components form a calendar-valid timestamp, `parse_roc_datetime` returns a
datetime with year = offset + 1911 and the given month and day; a missing
time component defaults to 00:00:00 and missing seconds default to 0.
(The calendar-validity hypothesis is the needed amendment: shape-matching
strings with out-of-range components raise instead, see
`C5_counterexample`.) -/
theorem C5_roc_year_offset
    (sA sB sC : String)
    (ys ms ds wsL hs mis ss : List Char) (s1 s2 : Char)
    (hys : ys.all isDigitCh = true) (hysl : ys.length = 2 ∨ ys.length = 3)
    (hms : ms.all isDigitCh = true) (hmsl : ms.length = 1 ∨ ms.length = 2)
    (hds : ds.all isDigitCh = true) (hdsl : ds.length = 1 ∨ ds.length = 2)
    (hws : wsL.all isWs = true) (hwne : wsL ≠ [])
    (hhs : hs.all isDigitCh = true) (hhsl : hs.length = 1 ∨ hs.length = 2)
    (hmis : mis.all isDigitCh = true) (hmisl : mis.length = 2)
    (hss : ss.all isDigitCh = true) (hssl : ss.length = 2)
    (hs1 : s1 = '/' ∨ s1 = '-') (hs2 : s2 = '/' ∨ s2 = '-')
    (hA : sA.toList = ys ++ s1 :: (ms ++ s2 :: ds))
    (hB : sB.toList = ys ++ s1 :: (ms ++ s2 :: (ds ++ (wsL ++ (hs ++ ':' :: mis)))))
    (hC : sC.toList = ys ++ s1 :: (ms ++ s2 :: (ds ++ (wsL ++ (hs ++ ':' :: (mis ++ ':' :: ss))))))
    (hok : datetimeOk (digitsToNat ys + 1911) (digitsToNat ms) (digitsToNat ds)
      (digitsToNat hs) (digitsToNat mis) (digitsToNat ss) = true) :
    parse_roc_datetime (.val sC) =
      .ok (some ⟨digitsToNat ys + 1911, digitsToNat ms, digitsToNat ds,
        digitsToNat hs, digitsToNat mis, digitsToNat ss⟩) ∧
    parse_roc_datetime (.val sB) =
      .ok (some ⟨digitsToNat ys + 1911, digitsToNat ms, digitsToNat ds,
        digitsToNat hs, digitsToNat mis, 0⟩) ∧
    parse_roc_datetime (.val sA) =
      .ok (some ⟨digitsToNat ys + 1911, digitsToNat ms, digitsToNat ds, 0, 0, 0⟩) := by
  have hyne : ys ≠ [] := by
    rcases hysl with h | h <;> exact List.ne_nil_of_length_pos (by omega)
  have hdne : ds ≠ [] := by
    rcases hdsl with h | h <;> exact List.ne_nil_of_length_pos (by omega)
  have hmine : mis ≠ [] := List.ne_nil_of_length_pos (by omega)
  have hsne : ss ≠ [] := List.ne_nil_of_length_pos (by omega)
  have hok' := hok
  simp only [datetimeOk, Bool.and_eq_true, decide_eq_true_eq] at hok'
  have hokB : datetimeOk (digitsToNat ys + 1911) (digitsToNat ms) (digitsToNat ds)
      (digitsToNat hs) (digitsToNat mis) 0 = true :=
    datetimeOk_zero_time hok hok'.1.1.2 hok'.1.2 (by omega)
  have hokA : datetimeOk (digitsToNat ys + 1911) (digitsToNat ms) (digitsToNat ds)
      0 0 0 = true :=
    datetimeOk_zero_time hok (by omega) (by omega) (by omega)
  have hstripA : rocStripped (.val sA) = ys ++ s1 :: (ms ++ s2 :: ds) := by
    show stripChars sA.toList = _
    rw [hA]
    refine stripChars_eq_self (head_append_digit hys hyne) ?_
    obtain ⟨c0, hc0, hd0⟩ := getLast?_digit hds hdne
    have hlast : (ys ++ s1 :: (ms ++ s2 :: ds)).getLast? = some c0 :=
      getLast?_append_right (getLast?_cons_ne (getLast?_append_right
        (getLast?_cons_ne hc0)))
    intro c hc
    rw [hlast, Option.some.injEq] at hc
    exact hc ▸ digit_not_ws hd0
  have hstripB : rocStripped (.val sB) =
      ys ++ s1 :: (ms ++ s2 :: (ds ++ (wsL ++ (hs ++ ':' :: mis)))) := by
    show stripChars sB.toList = _
    rw [hB]
    refine stripChars_eq_self (head_append_digit hys hyne) ?_
    obtain ⟨c0, hc0, hd0⟩ := getLast?_digit hmis hmine
    have hlast : (ys ++ s1 :: (ms ++ s2 :: (ds ++ (wsL ++ (hs ++ ':' :: mis))))).getLast?
        = some c0 :=
      getLast?_append_right (getLast?_cons_ne (getLast?_append_right
        (getLast?_cons_ne (getLast?_append_right (getLast?_append_right
          (getLast?_append_right (getLast?_cons_ne hc0)))))))
    intro c hc
    rw [hlast, Option.some.injEq] at hc
    exact hc ▸ digit_not_ws hd0
  have hstripC : rocStripped (.val sC) =
      ys ++ s1 :: (ms ++ s2 :: (ds ++ (wsL ++ (hs ++ ':' :: (mis ++ ':' :: ss))))) := by
    show stripChars sC.toList = _
    rw [hC]
    refine stripChars_eq_self (head_append_digit hys hyne) ?_
    obtain ⟨c0, hc0, hd0⟩ := getLast?_digit hss hsne
    have hlast : (ys ++ s1 :: (ms ++ s2 :: (ds ++ (wsL ++
        (hs ++ ':' :: (mis ++ ':' :: ss)))))).getLast? = some c0 :=
      getLast?_append_right (getLast?_cons_ne (getLast?_append_right
        (getLast?_cons_ne (getLast?_append_right (getLast?_append_right
          (getLast?_append_right (getLast?_cons_ne (getLast?_append_right
            (getLast?_cons_ne hc0)))))))))
    intro c hc
    rw [hlast, Option.some.injEq] at hc
    exact hc ▸ digit_not_ws hd0
  have hAne : sA ≠ "" := by
    intro h
    have h0 : sA.toList = [] := by rw [h]; rfl
    rw [hA] at h0
    simp at h0
  have hBne : sB ≠ "" := by
    intro h
    have h0 : sB.toList = [] := by rw [h]; rfl
    rw [hB] at h0
    simp at h0
  have hCne : sC ≠ "" := by
    intro h
    have h0 : sC.toList = [] := by rw [h]; rfl
    rw [hC] at h0
    simp at h0
  have h1C := matchPattern1_spec hys hysl hms hmsl hds hdsl hws hwne hhs hhsl
    hmis hmisl hss hssl hs1 hs2
  have h1B := matchPattern1_noSeconds_none hys hysl hms hmsl hds hdsl hws hwne
    hhs hhsl hmis hs1 hs2
  have h2B := matchPattern2_spec hys hysl hms hmsl hds hdsl hws hwne hhs hhsl
    hmis hmisl hs1 hs2
  have h1A := matchPattern1_dateOnly_none hys hysl hms hmsl hds hs1 hs2
  have h2A := matchPattern2_dateOnly_none hys hysl hms hmsl hds hs1 hs2
  have h3A := matchPattern3_spec hys hysl hms hmsl hds hdsl hs1 hs2
  refine ⟨?_, ?_, ?_⟩
  · unfold parse_roc_datetime
    simp [pdIsna, pyTruthy, hCne, hstripC, h1C, datetimeNew, hok, bind, pure,
      Except.instMonad, Except.bind, Except.pure]
  · unfold parse_roc_datetime
    simp [pdIsna, pyTruthy, hBne, hstripB, h1B, h2B, datetimeNew, hokB, bind,
      pure, Except.instMonad, Except.bind, Except.pure]
  · unfold parse_roc_datetime
    simp [pdIsna, pyTruthy, hAne, hstripA, h1A, h2A, h3A, datetimeNew, hokA,
      bind, pure, Except.instMonad, Except.bind, Except.pure]

/-- Witness for C5 at "114/1/8" with and without time components. -/
theorem C5_roc_year_offset_witness :
    parse_roc_datetime (.val "114/1/8 3:04:05") = .ok (some ⟨2025, 1, 8, 3, 4, 5⟩) ∧
    parse_roc_datetime (.val "114/1/8 3:04") = .ok (some ⟨2025, 1, 8, 3, 4, 0⟩) ∧
    parse_roc_datetime (.val "114/1/8") = .ok (some ⟨2025, 1, 8, 0, 0, 0⟩) :=
  C5_roc_year_offset "114/1/8" "114/1/8 3:04" "114/1/8 3:04:05"
    ['1', '1', '4'] ['1'] ['8'] [' '] ['3'] ['0', '4'] ['0', '5'] '/' '/'
    (by decide) (by decide) (by decide) (by decide) (by decide) (by decide)
    (by decide) (by decide) (by decide) (by decide) (by decide) (by decide)
    (by decide) (by decide) (by decide) (by decide) rfl rfl rfl (by decide)

/-- C5 counterexample: "114/13/1" matches the documented date-only shape
with month 13, yet the parser raises `ValueError` instead of returning a
datetime. -/
theorem C5_counterexample :
    matchPattern3 (rocStripped (.val "114/13/1")) = some (114, 13, 1) ∧
    parse_roc_datetime (.val "114/13/1") = .error () := ⟨by decide, rfl⟩

/-- The skip counter of `scrubGo` only drops already-consumed characters. -/
theorem scrubGo_eq_drop (tryM : List Char → Option ℕ) :
    ∀ (cs : List Char) (k : ℕ), scrubGo tryM k cs = scrubGo tryM 0 (cs.drop k) := by
  intro cs
  induction cs with
  | nil => intro k; cases k <;> rfl
  | cons c rest ih =>
    intro k
    cases k with
    | zero => rfl
    | succ k => show scrubGo tryM k rest = _; rw [ih k]; rfl

/-- Prepending a digit to a position where the house-number pattern
matches still matches (the greedy `\d+` absorbs it), so a kept character
of the scrub is never a digit directly preceding a later match. -/
theorem tryHouse_cons_digit {c : Char} {cs : List Char} {n : ℕ}
    (hc : isDigitCh c = true) (h : tryHouse cs = some n) :
    tryHouse (c :: cs) ≠ none := by
  unfold tryHouse at h ⊢
  rw [List.takeWhile_cons_of_pos (by simpa using hc)]
  simp only [List.length_cons]
  rw [if_neg (Nat.succ_ne_zero _), List.drop_succ_cons]
  by_cases h0 : (cs.takeWhile isDigitCh).length = 0
  · rw [if_pos h0] at h; cases h
  · rw [if_neg h0] at h
    cases hdrop : List.drop (List.takeWhile isDigitCh cs).length cs with
    | nil => simp only [hdrop] at h; cases h
    | cons x r2 =>
      simp only [hdrop] at h
      by_cases hx : (decide (x = '-') || decide (x = '之')) = true
      · rw [if_pos hx] at h
        cases hr : List.drop (List.takeWhile isDigitCh r2).length r2 with
        | nil => simp only [hr] at h; cases h
        | cons y r4 =>
          simp only [hr] at h
          by_cases hy : y = '號'
          · simp [hx, hy, hr]
          · rw [if_neg hy] at h; cases h
      · rw [if_neg hx] at h
        by_cases hxh : x = '號'
        · simp [hx, hxh]
        · rw [if_neg hxh] at h; cases h

/-- A digit immediately followed by `號` starts a house-number match. -/
theorem tryHouse_digit_hao {c : Char} {z : List Char}
    (hc : isDigitCh c = true) :
    tryHouse (c :: '號' :: z) = some (2 + houseSuffixLen z) := by
  unfold tryHouse
  rw [List.takeWhile_cons_of_pos (by simpa using hc),
    List.takeWhile_cons_of_neg (by decide)]
  simp [houseSuffixLen]

/-- Extending a clean string by a safe head keeps it clean. -/
theorem containsDigitHao_cons (c : Char) (l : List Char)
    (h1 : containsDigitHao l = false)
    (h2 : isDigitCh c = true → l.head? ≠ some '號') :
    containsDigitHao (c :: l) = false := by
  cases l with
  | nil => rfl
  | cons d r =>
    show (isDigitCh c && decide (d = '號') || containsDigitHao (d :: r)) = false
    rw [h1, Bool.or_false]
    cases hcb : isDigitCh c with
    | false => rfl
    | true =>
      have hd : d ≠ '號' := fun h => h2 hcb (by rw [List.head?_cons, h])
      simp [hd]

/-- C4: the house-number pass of `deidentify_address` — `re.sub` of
`\d+[-之]?\d*號[前後旁]?` — leaves no digit immediately followed by `號`
in its own output.  (This per-pass guarantee is all that survives of the
claim: the district-removal pass can splice a surviving digit against a
surviving `號`, so the end-to-end house-number clause fails; and the
neighborhood-token clause fails outright — even the dedicated `里`-pass
can leave a freshly formed `[一-龥]{2,4}里` token, because the bounded
quantifier `{2,4}` has no analogue of the unbounded `\d+` absorption this
theorem relies on, and the intersection branch rebuilds the location from
the raw address; see `C4_counterexample` for all three failures.) -/
theorem C4_house_number_removed (cs : List Char) :
    containsDigitHao (scrub tryHouse cs) = false := by
  suffices h : ∀ N (l : List Char), l.length ≤ N →
      containsDigitHao (scrub tryHouse l) = false from h cs.length cs le_rfl
  intro N
  induction N with
  | zero =>
    intro l hl
    have hnil : l = [] := List.length_eq_zero.1 (by omega)
    subst hnil
    rfl
  | succ N ih =>
    intro l hl
    cases l with
    | nil => rfl
    | cons c rest =>
      cases hm : tryHouse (c :: rest) with
      | some n =>
        have hred : scrub tryHouse (c :: rest) = scrubGo tryHouse (n - 1) rest := by
          simp [scrub, scrubGo, hm]
        rw [hred, scrubGo_eq_drop]
        refine ih (rest.drop (n - 1)) ?_
        have := List.length_drop (n - 1) rest
        simp only [List.length_cons] at hl
        omega
      | none =>
        have hred : scrub tryHouse (c :: rest) = c :: scrub tryHouse rest := by
          simp [scrub, scrubGo, hm]
        rw [hred]
        have hrest : containsDigitHao (scrub tryHouse rest) = false :=
          ih rest (by simp only [List.length_cons] at hl; omega)
        refine containsDigitHao_cons c _ hrest ?_
        intro hc hhead
        cases rest with
        | nil => exact absurd hhead (by simp [scrub, scrubGo])
        | cons r0 rest2 =>
          have hm2 : tryHouse (r0 :: rest2) = none := by
            cases hmr : tryHouse (r0 :: rest2) with
            | none => rfl
            | some n => exact absurd hm (tryHouse_cons_digit hc hmr)
          have hh : (scrub tryHouse (r0 :: rest2)).head? = some r0 := by
            simp [scrub, scrubGo, hm2]
          rw [hh] at hhead
          injection hhead with hr0
          subst hr0
          rw [tryHouse_digit_hao hc] at hm
          cases hm

/-- C4 counterexample, refuting both clauses of the claim.  House
numbers: `12新化區號` de-identifies to location `12號` — the
district-removal pass glued the digits to the trailing `號`.
Neighborhood tokens: `府東中西南北里里` de-identifies to `府東里`, a
2-CJK-`里` token formed by the `里`-removal pass itself (the pass deletes
`中西南北里` and splices the kept `府東` against the kept second `里`,
as `scrub tryLiTok` shows directly); and the intersection branch of
`甲乙里路/丙丁街` copies the token `甲乙里` from the raw address into
`甲乙里路與丙丁街路口`. -/
theorem C4_counterexample :
    (deidentify_address (.val "12新化區號") = ("新化區", "12號") ∧
      containsDigitHao ((deidentify_address (.val "12新化區號")).2.toList) =
        true) ∧
    (deidentify_address (.val "府東中西南北里里") = ("未知", "府東里") ∧
      scrub tryLiTok "府東中西南北里里".toList = "府東里".toList ∧
      containsLiTok
        ((deidentify_address (.val "府東中西南北里里")).2.toList) = true) ∧
    (deidentify_address (.val "甲乙里路/丙丁街") =
        ("未知", "甲乙里路與丙丁街路口") ∧
      containsLiTok
        ((deidentify_address (.val "甲乙里路/丙丁街")).2.toList) = true) := by
  refine ⟨⟨rfl, by decide⟩, ⟨rfl, rfl, by decide⟩, rfl, by decide⟩

/-- `insertDesc` inserts, up to permutation. -/
theorem insertDesc_perm (x : SiteRec) :
    ∀ l : List SiteRec, (insertDesc x l).Perm (x :: l) := by
  intro l
  induction l with
  | nil => exact List.Perm.refl _
  | cons y ys ih =>
    show (if y.metrics.score < x.metrics.score then x :: y :: ys
      else y :: insertDesc x ys).Perm _
    by_cases hc : y.metrics.score < x.metrics.score
    · rw [if_pos hc]
    · rw [if_neg hc]
      exact (ih.cons y).trans (List.Perm.swap x y ys)

/-- `insertDesc` preserves descending sortedness by rounded score. -/
theorem insertDesc_sorted {x : SiteRec} {l : List SiteRec}
    (h : l.Pairwise fun a b => b.metrics.score ≤ a.metrics.score) :
    (insertDesc x l).Pairwise fun a b => b.metrics.score ≤ a.metrics.score := by
  induction l with
  | nil => simp [insertDesc]
  | cons y ys ih =>
    rw [List.pairwise_cons] at h
    show List.Pairwise _ (if y.metrics.score < x.metrics.score then x :: y :: ys
      else y :: insertDesc x ys)
    by_cases hc : y.metrics.score < x.metrics.score
    · rw [if_pos hc]
      refine List.Pairwise.cons ?_ (List.Pairwise.cons h.1 h.2)
      intro b hb
      rcases List.mem_cons.1 hb with rfl | hmem
      · exact le_of_lt hc
      · exact le_trans (h.1 b hmem) (le_of_lt hc)
    · rw [if_neg hc]
      refine List.Pairwise.cons ?_ (ih h.2)
      intro b hb
      rcases List.mem_cons.1 ((insertDesc_perm x ys).mem_iff.1 hb) with rfl | hmem
      · exact le_of_not_lt hc
      · exact h.1 b hmem

/-- The fold of `sortDesc` permutes its input onto the accumulator. -/
theorem sortDesc_perm_aux :
    ∀ (l acc : List SiteRec),
      (l.foldl (fun acc x => insertDesc x acc) acc).Perm (l ++ acc) := by
  intro l
  induction l with
  | nil => intro acc; simp
  | cons x xs ih =>
    intro acc
    show (xs.foldl _ (insertDesc x acc)).Perm _
    refine (ih (insertDesc x acc)).trans ?_
    refine (List.Perm.append_left xs (insertDesc_perm x acc)).trans ?_
    exact List.perm_middle

/-- Sorting the candidate list is a permutation. -/
theorem sortDesc_perm (l : List SiteRec) : (sortDesc l).Perm l := by
  have := sortDesc_perm_aux l []
  simpa [sortDesc] using this

/-- The fold of `sortDesc` keeps the accumulator sorted. -/
theorem sortDesc_sorted_aux :
    ∀ (l acc : List SiteRec),
      (acc.Pairwise fun a b => b.metrics.score ≤ a.metrics.score) →
      (l.foldl (fun acc x => insertDesc x acc) acc).Pairwise
        fun a b => b.metrics.score ≤ a.metrics.score := by
  intro l
  induction l with
  | nil => intro acc h; exact h
  | cons x xs ih => intro acc h; exact ih (insertDesc x acc) (insertDesc_sorted h)

/-- Sorting with score key and reverse flag yields descending scores. -/
theorem sortDesc_sorted (l : List SiteRec) :
    (sortDesc l).Pairwise fun a b => b.metrics.score ≤ a.metrics.score :=
  sortDesc_sorted_aux l [] (List.Pairwise.nil)

/-- The ranks written by `assignRanks` are consecutive from the start
index plus one. -/
theorem enumFrom_rank_aux :
    ∀ (l : List SiteRec) (n : ℕ),
      ((List.enumFrom n l).map fun p => ({p.2 with rank := p.1 + 1} : SiteRec)).map
          SiteRec.rank = List.range' (n + 1) l.length := by
  intro l
  induction l with
  | nil => intro n; rfl
  | cons x xs ih =>
    intro n
    show (n + 1) :: _ = _
    rw [List.length_cons, List.range'_succ, ih (n + 1)]

/-- `assignRanks` does not change any score. -/
theorem enumFrom_score_aux :
    ∀ (l : List SiteRec) (n : ℕ),
      ((List.enumFrom n l).map fun p => ({p.2 with rank := p.1 + 1} : SiteRec)).map
          (fun r => r.metrics.score) = l.map fun r => r.metrics.score := by
  intro l
  induction l with
  | nil => intro n; rfl
  | cons x xs ih =>
    intro n
    show _ :: _ = _ :: _
    rw [ih (n + 1)]

/-- `assignRanks` preserves length. -/
theorem assignRanks_length (l : List SiteRec) :
    (assignRanks l).length = l.length := by
  simp [assignRanks, List.enum_length]

/-- The ranks of `assignRanks` are 1, 2, .. in list order. -/
theorem assignRanks_rank_map (l : List SiteRec) :
    (assignRanks l).map SiteRec.rank = List.range' 1 l.length := by
  show ((List.enumFrom 0 l).map _).map SiteRec.rank = _
  exact enumFrom_rank_aux l 0

/-- The scores of `assignRanks` equal those of its input, in order. -/
theorem assignRanks_score_map (l : List SiteRec) :
    (assignRanks l).map (fun r => r.metrics.score) =
      l.map fun r => r.metrics.score := by
  show ((List.enumFrom 0 l).map _).map _ = _
  exact enumFrom_score_aux l 0

/-- C2: for every query with a valid topic, the returned list is the
per-district candidate list sorted by composite (rounded) score in
descending order and truncated to the first 5; the entry at position i
carries rank i + 1; and every omitted candidate — the part of the sorted
list after the first 5 — has a score no greater than any returned entry,
in particular the last one. -/
theorem C2_ranking (topic_code : String) (shift_id : Option String)
    (days : ℕ) (end_date : PyDate) (tickets : List Ticket)
    (crashes : List Crash) (col : Ticket → Bool)
    (hcol : topicColumn? topic_code = some col) :
    let cand := top5Candidates col topic_code shift_id days end_date tickets
      crashes
    ∃ resp,
      get_top5_recommendations topic_code shift_id days end_date tickets
        crashes = .ok resp ∧
      resp.recommendations = assignRanks ((sortDesc cand).take 5) ∧
      resp.recommendations.length = min 5 cand.length ∧
      resp.recommendations.map SiteRec.rank =
        List.range' 1 resp.recommendations.length ∧
      resp.recommendations.map (fun r => r.metrics.score) =
        ((sortDesc cand).take 5).map (fun r => r.metrics.score) ∧
      ((sortDesc cand).Pairwise fun a b => b.metrics.score ≤ a.metrics.score) ∧
      (sortDesc cand).Perm cand ∧
      (∀ x ∈ (sortDesc cand).drop 5, ∀ y ∈ (sortDesc cand).take 5,
        x.metrics.score ≤ y.metrics.score) ∧
      resp.total_sites = cand.length := by
  intro cand
  have hresp : get_top5_recommendations topic_code shift_id days end_date
      tickets crashes =
      .ok { topic_code := topic_code
            recommendations := assignRanks ((sortDesc cand).take 5)
            total_sites := cand.length } := by
    simp only [get_top5_recommendations, hcol]
  refine ⟨_, hresp, rfl, ?_, ?_, ?_, sortDesc_sorted cand, sortDesc_perm cand,
    ?_, rfl⟩
  · show (assignRanks ((sortDesc cand).take 5)).length = _
    rw [assignRanks_length, List.length_take, (sortDesc_perm cand).length_eq]
  · show (assignRanks ((sortDesc cand).take 5)).map SiteRec.rank =
      List.range' 1 (assignRanks ((sortDesc cand).take 5)).length
    rw [assignRanks_rank_map, assignRanks_length]
  · exact assignRanks_score_map _
  · intro x hx y hy
    have hp := sortDesc_sorted cand
    rw [← List.take_append_drop 5 (sortDesc cand), List.pairwise_append] at hp
    exact hp.2.2 y hy x hx

/-- Witness for C2 at a concrete DUI query. -/
theorem C2_ranking_witness :
    let cand := top5Candidates Ticket.topic_dui "DUI" none 30 ⟨2025, 1, 20⟩ [] []
    ∃ resp,
      get_top5_recommendations "DUI" none 30 ⟨2025, 1, 20⟩ [] [] = .ok resp ∧
      resp.recommendations = assignRanks ((sortDesc cand).take 5) ∧
      resp.recommendations.length = min 5 cand.length ∧
      resp.recommendations.map SiteRec.rank =
        List.range' 1 resp.recommendations.length ∧
      resp.recommendations.map (fun r => r.metrics.score) =
        ((sortDesc cand).take 5).map (fun r => r.metrics.score) ∧
      ((sortDesc cand).Pairwise fun a b => b.metrics.score ≤ a.metrics.score) ∧
      (sortDesc cand).Perm cand ∧
      (∀ x ∈ (sortDesc cand).drop 5, ∀ y ∈ (sortDesc cand).take 5,
        x.metrics.score ≤ y.metrics.score) ∧
      resp.total_sites = cand.length :=
  C2_ranking "DUI" none 30 ⟨2025, 1, 20⟩ [] [] Ticket.topic_dui rfl

/-- Membership in the distinct-key scan: present in the input and not
already seen. -/
theorem mem_firstOccurrencesGo (d : String) :
    ∀ (l seen : List String),
      d ∈ firstOccurrencesGo seen l ↔ (d ∈ l ∧ d ∉ seen) := by
  intro l
  induction l with
  | nil => intro seen; simp [firstOccurrencesGo]
  | cons x rest ih =>
    intro seen
    show d ∈ (if seen.contains x then firstOccurrencesGo seen rest
      else x :: firstOccurrencesGo (seen ++ [x]) rest) ↔ _
    by_cases hc : seen.contains x = true
    · rw [if_pos hc, ih seen]
      have hx : x ∈ seen := by simpa using hc
      constructor
      · rintro ⟨hmem, hns⟩
        exact ⟨List.mem_cons_of_mem _ hmem, hns⟩
      · rintro ⟨hmem, hns⟩
        rcases List.mem_cons.1 hmem with rfl | h
        · exact absurd hx hns
        · exact ⟨h, hns⟩
    · rw [if_neg hc]
      have hx : x ∉ seen := by simpa using hc
      simp only [List.mem_cons, ih (seen ++ [x]), List.mem_append,
        List.mem_singleton]
      constructor
      · rintro (rfl | ⟨hr, hno⟩)
        · exact ⟨Or.inl rfl, hx⟩
        · exact ⟨Or.inr hr, fun hs => hno (Or.inl hs)⟩
      · rintro ⟨rfl | hr, hns⟩
        · exact Or.inl rfl
        · by_cases hdx : d = x
          · exact Or.inl hdx
          · refine Or.inr ⟨hr, fun h => ?_⟩
            rcases h with h | h | h
            · exact hns h
            · exact hdx h
            · exact List.not_mem_nil d h
  
/-- The grouping keys are exactly the values occurring in the input. -/
theorem mem_firstOccurrences (d : String) (l : List String) :
    d ∈ firstOccurrences l ↔ d ∈ l := by
  rw [firstOccurrences, mem_firstOccurrencesGo]
  simp

/-- The districts of the candidate list are the distinct non-empty
districts of the matched tickets. -/
theorem top5Candidates_map_district (col : Ticket → Bool)
    (topic_code : String) (shift_id : Option String) (days : ℕ)
    (end_date : PyDate) (tickets : List Ticket) (crashes : List Crash) :
    (top5Candidates col topic_code shift_id days end_date tickets
      crashes).map SiteRec.district =
      (firstOccurrences ((tickets.filter (ticketMatches col shift_id
        (dateSubDays end_date days) end_date)).map Ticket.district)).filter
        fun d => d ≠ "" := by
  simp only [top5Candidates, ticketDistrictStats, List.filter_map,
    List.map_map]
  rw [show (SiteRec.district ∘ mkSiteRec topic_code (List.filter (fun c =>
      (dateSubDays end_date days).leb c.occurred_date &&
        c.occurred_date.leb end_date) crashes) ∘ fun d => (d,
      (List.filter (fun t => decide (t.district = d))
        (List.filter (ticketMatches col shift_id (dateSubDays end_date days)
          end_date) tickets)).length)) = id from rfl]
  rw [show (((fun p => decide (p.1 ≠ "")) : String × ℕ → Bool) ∘ fun d => (d,
      (List.filter (fun t => decide (t.district = d))
        (List.filter (ticketMatches col shift_id (dateSubDays end_date days)
          end_date) tickets)).length)) = (fun d => decide (d ≠ "")) from rfl]
  rw [List.map_id]

/-- A district is a scoring candidate iff it is non-empty and has a
matching ticket in the window. -/
theorem top5Candidates_districts (col : Ticket → Bool) (topic_code : String)
    (shift_id : Option String) (days : ℕ) (end_date : PyDate)
    (tickets : List Ticket) (crashes : List Crash) (d : String) :
    d ∈ (top5Candidates col topic_code shift_id days end_date tickets
        crashes).map SiteRec.district ↔
      (d ≠ "" ∧ ∃ t ∈ tickets,
        ticketMatches col shift_id (dateSubDays end_date days) end_date t =
          true ∧ t.district = d) := by
  rw [top5Candidates_map_district, List.mem_filter, mem_firstOccurrences]
  simp only [List.mem_map, List.mem_filter, decide_not]
  constructor
  · rintro ⟨⟨t, ⟨ht, hm⟩, rfl⟩, hne⟩
    exact ⟨by simpa using hne, t, ht, hm, rfl⟩
  · rintro ⟨hne, t, ht, hm, rfl⟩
    exact ⟨⟨t, ⟨ht, hm⟩, rfl⟩, by simpa using hne⟩

/-- The payload of an enumerated entry is in the underlying list. -/
theorem enumFrom_snd_mem :
    ∀ (l : List SiteRec) (n : ℕ) (p : ℕ × SiteRec),
      p ∈ List.enumFrom n l → p.2 ∈ l := by
  intro l
  induction l with
  | nil => intro n p h; cases h
  | cons x xs ih =>
    intro n p h
    rcases List.mem_cons.1 h with rfl | h2
    · exact List.mem_cons_self _ _
    · exact List.mem_cons_of_mem _ (ih (n + 1) p h2)

/-- Every ranked entry keeps the district of a candidate entry. -/
theorem assignRanks_district_mem {r : SiteRec} {l : List SiteRec}
    (h : r ∈ assignRanks l) : ∃ s ∈ l, r.district = s.district := by
  obtain ⟨p, hp, rfl⟩ := List.mem_map.1 h
  exact ⟨p.2, enumFrom_snd_mem l 0 p hp, rfl⟩

/-- C10: the candidate set scored and ranked by the top-5 query is exactly
the set of non-empty districts with at least one ticket matching the
topic, window and shift filter; `total_sites` counts those candidates; and
every returned recommendation is for a candidate district — so a district
with crashes but no matching tickets never appears. -/
theorem C10_candidate_set (topic_code : String) (shift_id : Option String)
    (days : ℕ) (end_date : PyDate) (tickets : List Ticket)
    (crashes : List Crash) (col : Ticket → Bool)
    (hcol : topicColumn? topic_code = some col) :
    let cand := top5Candidates col topic_code shift_id days end_date tickets
      crashes
    ∃ resp,
      get_top5_recommendations topic_code shift_id days end_date tickets
        crashes = .ok resp ∧
      (∀ d, d ∈ cand.map SiteRec.district ↔
        (d ≠ "" ∧ ∃ t ∈ tickets,
          ticketMatches col shift_id (dateSubDays end_date days) end_date t =
            true ∧ t.district = d)) ∧
      resp.total_sites = cand.length ∧
      (∀ r ∈ resp.recommendations, r.district ∈ cand.map SiteRec.district) := by
  intro cand
  have hresp : get_top5_recommendations topic_code shift_id days end_date
      tickets crashes =
      .ok { topic_code := topic_code
            recommendations := assignRanks ((sortDesc cand).take 5)
            total_sites := cand.length } := by
    simp only [get_top5_recommendations, hcol]
  refine ⟨_, hresp,
    fun d => top5Candidates_districts col topic_code shift_id days end_date
      tickets crashes d, rfl, ?_⟩
  intro r hr
  obtain ⟨s, hs, hds⟩ := assignRanks_district_mem hr
  have hs2 : s ∈ cand :=
    (sortDesc_perm cand).mem_iff.1 (List.take_subset _ _ hs)
  rw [hds]
  exact List.mem_map_of_mem _ hs2

/-- Witness for C10 at a concrete red-light query. -/
theorem C10_candidate_set_witness :
    let cand := top5Candidates Ticket.topic_red_light "RED_LIGHT" (some "03")
      7 ⟨2026, 3, 5⟩ [] []
    ∃ resp,
      get_top5_recommendations "RED_LIGHT" (some "03") 7 ⟨2026, 3, 5⟩ [] [] =
        .ok resp ∧
      (∀ d, d ∈ cand.map SiteRec.district ↔
        (d ≠ "" ∧ ∃ t ∈ ([] : List Ticket),
          ticketMatches Ticket.topic_red_light (some "03")
            (dateSubDays ⟨2026, 3, 5⟩ 7) ⟨2026, 3, 5⟩ t = true ∧
          t.district = d)) ∧
      resp.total_sites = cand.length ∧
      (∀ r ∈ resp.recommendations, r.district ∈ cand.map SiteRec.district) :=
  C10_candidate_set "RED_LIGHT" (some "03") 7 ⟨2026, 3, 5⟩ [] []
    Ticket.topic_red_light rfl

/-- `buildCrash` raises exactly when the birth-date parse raises,
independently of the jitter stream and cursor. -/
theorem buildCrash_err {row : Row} {occ : PyDateTime}
    (h : crashAgeInfo row occ = .error ()) (rng : ℕ → ℚ) (ctr : ℕ)
    (batch_id case_id : String) :
    buildCrash rng ctr batch_id row case_id occ = .error () := by
  simp only [buildCrash, h, bind, Except.instMonad, Except.bind]

/-- When the birth-date parse succeeds, `buildCrash` succeeds and stores
the resolved case number, for every jitter stream and cursor. -/
theorem buildCrash_ok {row : Row} {occ : PyDateTime} {g : String} {e : Bool}
    (h : crashAgeInfo row occ = .ok (g, e)) (rng : ℕ → ℚ) (ctr : ℕ)
    (batch_id case_id : String) :
    ∃ c ctr', buildCrash rng ctr batch_id row case_id occ = .ok (c, ctr') ∧
      c.case_id = case_id := by
  simp only [buildCrash, h, bind, Except.instMonad, Except.bind, pure,
    Except.pure]
  exact ⟨_, _, rfl, rfl⟩

/-- Exhaustive outcome analysis of one crash-import row: silent blank
skip, blank error, duplicate skip, per-row failure (bad or missing time,
or a raising birth-date parse), or insertion of a record carrying the
resolved case number. -/
theorem crashStep_outcomes (rng : ℕ → ℚ) (b : String) (s : CrashState)
    (i : ℕ) (row : Row) :
    (resolveCaseId row = none ∧ nonEmptyCount row < 3 ∧
      crashStep rng b s (i, row) = s) ∨
    (resolveCaseId row = none ∧ ¬ nonEmptyCount row < 3 ∧
      (crashStep rng b s (i, row)).db = s.db ∧
      (crashStep rng b s (i, row)).stats.new = s.stats.new ∧
      (crashStep rng b s (i, row)).stats.skipped = s.stats.skipped ∧
      (crashStep rng b s (i, row)).stats.errors = s.stats.errors + 1) ∨
    (∃ id, resolveCaseId row = some id ∧
      (s.db.map Crash.case_id).contains id = true ∧
      crashStep rng b s (i, row) =
        { s with stats := { s.stats with skipped := s.stats.skipped + 1 } }) ∨
    (∃ id, resolveCaseId row = some id ∧
      (s.db.map Crash.case_id).contains id = false ∧
      (resolveOccurredTime row crashTimeCols = .error () ∨
       resolveOccurredTime row crashTimeCols = .ok none ∨
       ∃ occ, resolveOccurredTime row crashTimeCols = .ok (some occ) ∧
         crashAgeInfo row occ = .error ()) ∧
      (crashStep rng b s (i, row)).db = s.db ∧
      (crashStep rng b s (i, row)).stats.new = s.stats.new ∧
      (crashStep rng b s (i, row)).stats.skipped = s.stats.skipped ∧
      (crashStep rng b s (i, row)).stats.errors = s.stats.errors + 1) ∨
    (∃ id occ c, resolveCaseId row = some id ∧
      (s.db.map Crash.case_id).contains id = false ∧
      resolveOccurredTime row crashTimeCols = .ok (some occ) ∧
      (∃ g e, crashAgeInfo row occ = .ok (g, e)) ∧
      c.case_id = id ∧
      (crashStep rng b s (i, row)).db = s.db ++ [c] ∧
      (crashStep rng b s (i, row)).stats.new = s.stats.new + 1 ∧
      (crashStep rng b s (i, row)).stats.skipped = s.stats.skipped ∧
      (crashStep rng b s (i, row)).stats.errors = s.stats.errors) := by
  cases hres : resolveCaseId row with
  | none =>
    by_cases hc : nonEmptyCount row < 3
    · refine Or.inl ⟨rfl, hc, ?_⟩
      simp only [crashStep, hres]
      rw [if_pos hc]
    · refine Or.inr (Or.inl ⟨rfl, hc, ?_, ?_, ?_, ?_⟩) <;>
      · simp only [crashStep, hres]
        rw [if_neg hc]
  | some cid =>
    by_cases hdup : (s.db.map Crash.case_id).contains cid = true
    · refine Or.inr (Or.inr (Or.inl ⟨cid, rfl, hdup, ?_⟩))
      simp only [crashStep, hres]
      rw [if_pos hdup]
    · have hdup' : (s.db.map Crash.case_id).contains cid = false := by
        revert hdup; cases (s.db.map Crash.case_id).contains cid <;> simp
      cases hocc : resolveOccurredTime row crashTimeCols with
      | error u =>
        cases u
        refine Or.inr (Or.inr (Or.inr (Or.inl ⟨cid, rfl, hdup',
          Or.inl rfl, ?_, ?_, ?_, ?_⟩))) <;>
        · simp only [crashStep, hres]
          rw [if_neg hdup]
          simp only [hocc]
      | ok o =>
        cases o with
        | none =>
          refine Or.inr (Or.inr (Or.inr (Or.inl ⟨cid, rfl, hdup',
            Or.inr (Or.inl rfl), ?_, ?_, ?_, ?_⟩))) <;>
          · simp only [crashStep, hres]
            rw [if_neg hdup]
            simp only [hocc]
        | some occ =>
          cases hage : crashAgeInfo row occ with
          | error u =>
            cases u
            have hb := buildCrash_err hage rng s.ctr b cid
            refine Or.inr (Or.inr (Or.inr (Or.inl ⟨cid, rfl, hdup',
              Or.inr (Or.inr ⟨occ, rfl, hage⟩), ?_, ?_, ?_, ?_⟩))) <;>
            · simp only [crashStep, hres]
              rw [if_neg hdup]
              simp only [hocc, hb]
          | ok ge =>
            rcases ge with ⟨g, e⟩
            obtain ⟨c, ctr2, hb, hcid⟩ := buildCrash_ok hage rng s.ctr b cid
            refine Or.inr (Or.inr (Or.inr (Or.inr ⟨cid, occ, c, rfl, hdup',
              rfl, ⟨g, e, hage⟩, hcid, ?_, ?_, ?_, ?_⟩))) <;>
            · simp only [crashStep, hres]
              rw [if_neg hdup]
              simp only [hocc, hb]

/-- The crash loop only appends to the session store. -/
theorem crashFold_db_ext (rng : ℕ → ℚ) (b : String) :
    ∀ (l : List (ℕ × Row)) (s : CrashState),
      ∃ ext, (l.foldl (crashStep rng b) s).db = s.db ++ ext := by
  intro l
  induction l with
  | nil => intro s; exact ⟨[], by simp⟩
  | cons p t ih =>
    intro s
    show ∃ ext, (t.foldl _ (crashStep rng b s p)).db = _
    obtain ⟨ext2, h2⟩ := ih (crashStep rng b s p)
    rcases p with ⟨i, row⟩
    rcases crashStep_outcomes rng b s i row with
      ⟨_, _, hstep⟩ | ⟨_, _, hdb, _⟩ | ⟨id, _, _, hstep⟩ |
      ⟨id, _, _, _, hdb, _⟩ | ⟨id, occ, c, _, _, _, _, _, hdb, _⟩
    · rw [hstep] at h2 ⊢; exact ⟨ext2, h2⟩
    · rw [hdb] at h2; exact ⟨ext2, h2⟩
    · rw [hstep] at h2 ⊢; exact ⟨ext2, h2⟩
    · rw [hdb] at h2; exact ⟨ext2, h2⟩
    · rw [hdb] at h2
      exact ⟨[c] ++ ext2, by rw [h2, List.append_assoc]⟩

/-- A case number present in the store stays present through the loop. -/
theorem crashFold_mem_mono (rng : ℕ → ℚ) (b : String) (l : List (ℕ × Row))
    (s : CrashState) {id : String} (h : id ∈ s.db.map Crash.case_id) :
    id ∈ (l.foldl (crashStep rng b) s).db.map Crash.case_id := by
  obtain ⟨ext, hext⟩ := crashFold_db_ext rng b l s
  rw [hext, List.map_append]
  exact List.mem_append_left _ h

/-- The error counter never decreases in a step. -/
theorem crashStep_errors_le (rng : ℕ → ℚ) (b : String) (s : CrashState)
    (i : ℕ) (row : Row) :
    s.stats.errors ≤ (crashStep rng b s (i, row)).stats.errors := by
  rcases crashStep_outcomes rng b s i row with
    ⟨_, _, hstep⟩ | ⟨_, _, _, _, _, herr⟩ | ⟨id, _, _, hstep⟩ |
    ⟨id, _, _, _, _, _, _, herr⟩ | ⟨id, occ, c, _, _, _, _, _, _, _, _, herr⟩
  · rw [hstep]
  · rw [herr]; omega
  · rw [hstep]
  · rw [herr]; omega
  · rw [herr]

/-- The error counter never decreases across the loop. -/
theorem crashFold_errors_le (rng : ℕ → ℚ) (b : String) :
    ∀ (l : List (ℕ × Row)) (s : CrashState),
      s.stats.errors ≤ (l.foldl (crashStep rng b) s).stats.errors := by
  intro l
  induction l with
  | nil => intro s; exact le_rfl
  | cons p t ih =>
    intro s
    rcases p with ⟨i, row⟩
    exact le_trans (crashStep_errors_le rng b s i row)
      (ih (crashStep rng b s (i, row)))

/-- A run that adds no errors leaves every keyed row's case number in the
final store, and every unkeyed row it saw was a blank row. -/
theorem crashFold_clean_run (rng : ℕ → ℚ) (b : String) :
    ∀ (l : List (ℕ × Row)) (s : CrashState),
      (l.foldl (crashStep rng b) s).stats.errors = s.stats.errors →
      (∀ p ∈ l, ∀ id, resolveCaseId p.2 = some id →
        id ∈ (l.foldl (crashStep rng b) s).db.map Crash.case_id) ∧
      (∀ p ∈ l, resolveCaseId p.2 = none → nonEmptyCount p.2 < 3) := by
  intro l
  induction l with
  | nil => intro s _; exact ⟨fun p hp => absurd hp (List.not_mem_nil p),
      fun p hp => absurd hp (List.not_mem_nil p)⟩
  | cons q t ih =>
    intro s herr
    rcases q with ⟨i, row⟩
    have hstep_le := crashStep_errors_le rng b s i row
    have hfold_le := crashFold_errors_le rng b t (crashStep rng b s (i, row))
    have herr2 : (t.foldl (crashStep rng b) (crashStep rng b s (i, row))).stats.errors
        = s.stats.errors := herr
    have herr' : (t.foldl (crashStep rng b) (crashStep rng b s (i, row))).stats.errors
        = (crashStep rng b s (i, row)).stats.errors := by omega
    rcases crashStep_outcomes rng b s i row with
      ⟨hres, hcnt, hstep⟩ | ⟨hres, hcnt, _, _, _, herrinc⟩ |
      ⟨id0, hres, hdup, hstep⟩ | ⟨id0, hres, _, _, _, _, _, herrinc⟩ |
      ⟨id0, occ, c, hres, _, _, _, hcid, hdb, _, _, herrinc⟩
    · obtain ⟨ihm, ihb⟩ := ih (crashStep rng b s (i, row)) herr'
      constructor
      · intro p hp id hid
        rcases List.mem_cons.1 hp with rfl | hmem
        · rw [hres] at hid; cases hid
        · exact ihm p hmem id hid
      · intro p hp hid
        rcases List.mem_cons.1 hp with rfl | hmem
        · exact hcnt
        · exact ihb p hmem hid
    · exfalso
      rw [herrinc] at herr'
      omega
    · obtain ⟨ihm, ihb⟩ := ih (crashStep rng b s (i, row)) herr'
      constructor
      · intro p hp id hid
        rcases List.mem_cons.1 hp with rfl | hmem
        · rw [hres] at hid
          injection hid with hid0
          subst hid0
          refine crashFold_mem_mono rng b t _ ?_
          rw [hstep]
          simpa using hdup
        · exact ihm p hmem id hid
      · intro p hp hid
        rcases List.mem_cons.1 hp with rfl | hmem
        · rw [hres] at hid; cases hid
        · exact ihb p hmem hid
    · exfalso
      rw [herrinc] at herr'
      omega
    · obtain ⟨ihm, ihb⟩ := ih (crashStep rng b s (i, row)) herr'
      constructor
      · intro p hp id hid
        rcases List.mem_cons.1 hp with rfl | hmem
        · rw [hres] at hid
          injection hid with hid0
          subst hid0
          refine crashFold_mem_mono rng b t _ ?_
          rw [hdb, List.map_append]
          exact List.mem_append_right _ (by simp [hcid])
        · exact ihm p hmem id hid
      · intro p hp hid
        rcases List.mem_cons.1 hp with rfl | hmem
        · rw [hres] at hid; cases hid
        · exact ihb p hmem hid

/-- After any run, each keyed row either has its case number in the final
store or fails deterministically (bad/missing time or raising birth-date
parse). -/
theorem crashFold_run1_post (rng : ℕ → ℚ) (b : String) :
    ∀ (l : List (ℕ × Row)) (s : CrashState),
      ∀ p ∈ l, ∀ id, resolveCaseId p.2 = some id →
        id ∈ (l.foldl (crashStep rng b) s).db.map Crash.case_id ∨
        resolveOccurredTime p.2 crashTimeCols = .error () ∨
        resolveOccurredTime p.2 crashTimeCols = .ok none ∨
        ∃ occ, resolveOccurredTime p.2 crashTimeCols = .ok (some occ) ∧
          crashAgeInfo p.2 occ = .error () := by
  intro l
  induction l with
  | nil => intro s p hp; exact absurd hp (List.not_mem_nil p)
  | cons q t ih =>
    intro s p hp id hid
    rcases q with ⟨i, row⟩
    rcases List.mem_cons.1 hp with rfl | hmem
    · rcases crashStep_outcomes rng b s i row with
        ⟨hres, _, _⟩ | ⟨hres, _⟩ |
        ⟨id0, hres, hdup, hstep⟩ | ⟨id0, hres, _, hfail, _⟩ |
        ⟨id0, occ, c, hres, _, hocc, _, hcid, hdb, _⟩
      · rw [hres] at hid; cases hid
      · rw [hres] at hid; cases hid
      · rw [hres] at hid
        injection hid with hid0
        subst hid0
        refine Or.inl (crashFold_mem_mono rng b t _ ?_)
        rw [hstep]
        simpa using hdup
      · rw [hres] at hid
        injection hid with hid0
        subst hid0
        exact Or.inr hfail
      · rw [hres] at hid
        injection hid with hid0
        subst hid0
        refine Or.inl (crashFold_mem_mono rng b t _ ?_)
        rw [hdb, List.map_append]
        exact List.mem_append_right _ (by simp [hcid])
    · exact ih (crashStep rng b s (i, row)) p hmem id hid

/-- A run over rows that are all duplicates-or-failures with respect to
the starting store inserts nothing: the store and the `new` counter are
unchanged. -/
theorem crashFold_run2_weak (rng : ℕ → ℚ) (b : String) :
    ∀ (l : List (ℕ × Row)) (s : CrashState),
      (∀ p ∈ l, ∀ id, resolveCaseId p.2 = some id →
        id ∈ s.db.map Crash.case_id ∨
        resolveOccurredTime p.2 crashTimeCols = .error () ∨
        resolveOccurredTime p.2 crashTimeCols = .ok none ∨
        ∃ occ, resolveOccurredTime p.2 crashTimeCols = .ok (some occ) ∧
          crashAgeInfo p.2 occ = .error ()) →
      (l.foldl (crashStep rng b) s).db = s.db ∧
      (l.foldl (crashStep rng b) s).stats.new = s.stats.new := by
  intro l
  induction l with
  | nil => intro s _; exact ⟨rfl, rfl⟩
  | cons q t ih =>
    intro s hyp
    rcases q with ⟨i, row⟩
    have hstepfacts : (crashStep rng b s (i, row)).db = s.db ∧
        (crashStep rng b s (i, row)).stats.new = s.stats.new := by
      rcases crashStep_outcomes rng b s i row with
        ⟨hres, _, hstep⟩ | ⟨hres, _, hdb, hnew, _⟩ |
        ⟨id0, hres, hdup, hstep⟩ | ⟨id0, hres, _, _, hdb, hnew, _⟩ |
        ⟨id0, occ, c, hres, hdup, hocc, hage, hcid, hdb, hnew, _⟩
      · rw [hstep]; exact ⟨rfl, rfl⟩
      · exact ⟨hdb, hnew⟩
      · rw [hstep]; exact ⟨rfl, rfl⟩
      · exact ⟨hdb, hnew⟩
      · exfalso
        rcases hyp (i, row) (List.mem_cons_self _ _) id0 hres with
          hmem | hfail | hfail | ⟨occ2, hocc2, hage2⟩
        · rw [show (s.db.map Crash.case_id).contains id0 = true from by
            simpa using hmem] at hdup
          cases hdup
        · rw [hfail] at hocc; cases hocc
        · rw [hfail] at hocc; cases hocc
        · rw [hocc2] at hocc
          injection hocc with hocc3
          injection hocc3 with hocc4
          subst hocc4
          obtain ⟨g, e, hage5⟩ := hage
          rw [hage2] at hage5
          cases hage5
    obtain ⟨ihdb, ihnew⟩ := ih (crashStep rng b s (i, row)) (by
      intro p hp id hid
      rcases hyp p (List.mem_cons_of_mem _ hp) id hid with hmem | hrest
      · exact Or.inl (by rw [hstepfacts.1]; exact hmem)
      · exact Or.inr hrest)
    refine ⟨?_, ?_⟩
    · show (t.foldl (crashStep rng b) (crashStep rng b s (i, row))).db = s.db
      rw [ihdb, hstepfacts.1]
    · show (t.foldl (crashStep rng b)
        (crashStep rng b s (i, row))).stats.new = s.stats.new
      rw [ihnew, hstepfacts.2]

/-- A row whose resolved case number is already in the store is counted
as skipped and changes nothing else — the crash-import dedup branch. -/
theorem crashStep_dedup (rng : ℕ → ℚ) (b : String) (s : CrashState) (i : ℕ)
    (row : Row) (case_id : String) (h : resolveCaseId row = some case_id)
    (hdup : (s.db.map Crash.case_id).contains case_id = true) :
    crashStep rng b s (i, row) =
      { s with stats := { s.stats with skipped := s.stats.skipped + 1 } } := by
  simp only [crashStep, h]
  rw [if_pos hdup]

/-- A row whose ticket number is already in the store is counted as
skipped and changes nothing else — the ticket-import dedup branch. -/
theorem ticketStep_dedup (b : String) (s : TicketState) (i : ℕ) (row : Row)
    (hne : pyStrip (pyStr (rowGetD row "舉發單號" (.val ""))) ≠ "")
    (hdup : (s.db.map Ticket.ticket_number).contains
      (pyStrip (pyStr (rowGetD row "舉發單號" (.val "")))) = true) :
    ticketStep b s (i, row) =
      { s with stats := { s.stats with skipped := s.stats.skipped + 1 } } := by
  simp only [ticketStep]
  rw [if_neg hne, if_pos hdup]

/-- A run in which every keyed row is a duplicate and every unkeyed row
is blank only counts skips: the final state is the initial one with
`skipped` increased by the number of keyed rows. -/
theorem crashFold_run2_strong (rng : ℕ → ℚ) (b : String) :
    ∀ (l : List (ℕ × Row)) (s : CrashState),
      (∀ p ∈ l, ∀ id, resolveCaseId p.2 = some id →
        id ∈ s.db.map Crash.case_id) →
      (∀ p ∈ l, resolveCaseId p.2 = none → nonEmptyCount p.2 < 3) →
      l.foldl (crashStep rng b) s =
        { s with stats := { s.stats with skipped := s.stats.skipped +
          (l.filter fun p => (resolveCaseId p.2).isSome).length } } := by
  intro l
  induction l with
  | nil =>
    intro s _ _
    show s = _
    cases s with
    | mk db stats msgs ctr => cases stats; simp [List.filter]
  | cons q t ih =>
    intro s hkey hblank
    rcases q with ⟨i, row⟩
    cases hres : resolveCaseId row with
    | none =>
      have hcnt := hblank (i, row) (List.mem_cons_self _ _) hres
      have hstep : crashStep rng b s (i, row) = s := by
        simp only [crashStep, hres]
        rw [if_pos hcnt]
      show t.foldl (crashStep rng b) (crashStep rng b s (i, row)) = _
      rw [hstep]
      rw [ih s (fun p hp => hkey p (List.mem_cons_of_mem _ hp))
        (fun p hp => hblank p (List.mem_cons_of_mem _ hp))]
      have hfil : ((i, row) :: t).filter (fun p => (resolveCaseId p.2).isSome)
          = t.filter fun p => (resolveCaseId p.2).isSome := by
        rw [List.filter_cons]
        simp [hres]
      rw [hfil]
    | some id0 =>
      have hmem := hkey (i, row) (List.mem_cons_self _ _) id0 hres
      have hdup : (s.db.map Crash.case_id).contains id0 = true := by
        simpa using hmem
      have hstep := crashStep_dedup rng b s i row id0 hres hdup
      show t.foldl (crashStep rng b) (crashStep rng b s (i, row)) = _
      rw [hstep]
      rw [ih { s with stats := { s.stats with skipped := s.stats.skipped + 1 } }
        (fun p hp => hkey p (List.mem_cons_of_mem _ hp))
        (fun p hp => hblank p (List.mem_cons_of_mem _ hp))]
      have hfil : ((i, row) :: t).filter (fun p => (resolveCaseId p.2).isSome)
          = (i, row) :: t.filter (fun p => (resolveCaseId p.2).isSome) := by
        rw [List.filter_cons]
        simp [hres]
      rw [hfil, List.length_cons]
      have harith : s.stats.skipped + 1 +
          (t.filter fun p => (resolveCaseId p.2).isSome).length =
          s.stats.skipped +
          ((t.filter fun p => (resolveCaseId p.2).isSome).length + 1) := by
        omega
      rw [harith]

/-- Counting keyed rows is unaffected by enumeration. -/
theorem enum_keyed_count :
    ∀ (rows : List Row) (n : ℕ),
      ((List.enumFrom n rows).filter fun p => (resolveCaseId p.2).isSome).length
        = (rows.filter fun r => (resolveCaseId r).isSome).length := by
  intro rows
  induction rows with
  | nil => intro n; rfl
  | cons r t ih =>
    intro n
    show ((( n, r) :: List.enumFrom (n + 1) t).filter _).length = _
    rw [List.filter_cons, List.filter_cons]
    cases hs : (resolveCaseId r).isSome with
    | true => simp [hs, ih (n + 1)]
    | false => simp [hs, ih (n + 1)]

/-- C3: a crash row with an already-stored case number (and a ticket row
with an already-stored ticket number) increments `skipped` and is not
re-inserted; re-importing the same crash file yields `new = 0` and an
unchanged store, with `total` echoing the row count; and when the first
run reported no errors, the second run's `skipped` equals the number of
keyed rows.  (The claim's unconditional `skipped == total_valid_rows` is
the amended part: rows that failed in the first run fail again rather
than count as skipped, see `C3_counterexample`.) -/
theorem C3_idempotent_import (rng1 rng2 : ℕ → ℚ) (b1 b2 : String)
    (db0 : List Crash) (rows : List Row) :
    (∀ (s : CrashState) (i : ℕ) (row : Row) (case_id : String),
      resolveCaseId row = some case_id →
      (s.db.map Crash.case_id).contains case_id = true →
      crashStep rng1 b1 s (i, row) =
        { s with stats := { s.stats with skipped := s.stats.skipped + 1 } }) ∧
    (∀ (s : TicketState) (i : ℕ) (row : Row),
      pyStrip (pyStr (rowGetD row "舉發單號" (.val ""))) ≠ "" →
      (s.db.map Ticket.ticket_number).contains
        (pyStrip (pyStr (rowGetD row "舉發單號" (.val "")))) = true →
      ticketStep b1 s (i, row) =
        { s with stats := { s.stats with skipped := s.stats.skipped + 1 } }) ∧
    ((import_crash_file rng2 b2 (import_crash_file rng1 b1 db0 rows).db
        rows).db = (import_crash_file rng1 b1 db0 rows).db ∧
      (import_crash_file rng2 b2 (import_crash_file rng1 b1 db0 rows).db
        rows).stats.new = 0 ∧
      (import_crash_file rng2 b2 (import_crash_file rng1 b1 db0 rows).db
        rows).stats.total = rows.length) ∧
    ((import_crash_file rng1 b1 db0 rows).stats.errors = 0 →
      (import_crash_file rng2 b2 (import_crash_file rng1 b1 db0 rows).db
        rows).stats.skipped =
        (rows.filter fun r => (resolveCaseId r).isSome).length) := by
  refine ⟨fun s i row cid h hdup => crashStep_dedup rng1 b1 s i row cid h hdup,
    fun s i row hne hdup => ticketStep_dedup b1 s i row hne hdup, ?_, ?_⟩
  · have hpost := crashFold_run1_post rng1 b1 rows.enum
      ⟨db0, ⟨rows.length, 0, 0, 0⟩, [], 0⟩
    have hweak := crashFold_run2_weak rng2 b2 rows.enum
      ⟨(import_crash_file rng1 b1 db0 rows).db, ⟨rows.length, 0, 0, 0⟩, [], 0⟩
      (by
        intro p hp id hid
        rcases hpost p hp id hid with hmem | hrest
        · exact Or.inl hmem
        · exact Or.inr hrest)
    have htot := crashFold_total rng2 b2 rows.enum
      ⟨(import_crash_file rng1 b1 db0 rows).db, ⟨rows.length, 0, 0, 0⟩, [], 0⟩
    exact ⟨hweak.1, hweak.2, htot⟩
  · intro herr1
    have hclean := crashFold_clean_run rng1 b1 rows.enum
      ⟨db0, ⟨rows.length, 0, 0, 0⟩, [], 0⟩ herr1
    have hstrong := crashFold_run2_strong rng2 b2 rows.enum
      ⟨(import_crash_file rng1 b1 db0 rows).db, ⟨rows.length, 0, 0, 0⟩, [], 0⟩
      (fun p hp id hid => hclean.1 p hp id hid) hclean.2
    have hskip : (rows.enum.foldl (crashStep rng2 b2)
        ⟨(import_crash_file rng1 b1 db0 rows).db,
          ⟨rows.length, 0, 0, 0⟩, [], 0⟩).stats.skipped =
        0 + ((rows.enum.filter fun p => (resolveCaseId p.2).isSome)).length := by
      rw [hstrong]
    exact hskip.trans (by rw [Nat.zero_add]; exact enum_keyed_count rows 0)

/-- C3 counterexample: a 3-row file (bad-date row with case K1, good row
with case K1, bad-date row with case K2) imported twice gives
`{total 3, new 1, skipped 0, errors 2}` then `{total 3, new 0, skipped 2,
errors 1}`: the second run's `skipped` is 2, not the file's 3 keyed rows
nor its 1 fully-valid row, because failing rows fail again instead of
being deduplicated. -/
theorem C3_counterexample :
    (import_crash_file (fun _ => 0) "b" []
      [[("案件編號", PyCell.val "K1"), ("發生時間", PyCell.val "bad")],
       [("案件編號", PyCell.val "K1"), ("發生時間", PyCell.val "114/1/8")],
       [("案件編號", PyCell.val "K2"), ("發生時間", PyCell.val "xx")]]).stats =
      ⟨3, 1, 0, 2⟩ ∧
    (import_crash_file (fun _ => 0) "b"
      (import_crash_file (fun _ => 0) "b" []
        [[("案件編號", PyCell.val "K1"), ("發生時間", PyCell.val "bad")],
         [("案件編號", PyCell.val "K1"), ("發生時間", PyCell.val "114/1/8")],
         [("案件編號", PyCell.val "K2"), ("發生時間", PyCell.val "xx")]]).db
      [[("案件編號", PyCell.val "K1"), ("發生時間", PyCell.val "bad")],
       [("案件編號", PyCell.val "K1"), ("發生時間", PyCell.val "114/1/8")],
       [("案件編號", PyCell.val "K2"), ("發生時間", PyCell.val "xx")]]).stats =
      ⟨3, 0, 2, 1⟩ ∧
    ([[("案件編號", PyCell.val "K1"), ("發生時間", PyCell.val "bad")],
      [("案件編號", PyCell.val "K1"), ("發生時間", PyCell.val "114/1/8")],
      [("案件編號", PyCell.val "K2"), ("發生時間", PyCell.val "xx")]].filter
        fun r => (resolveCaseId r).isSome).length = 3 := by
  refine ⟨?_, ?_, ?_⟩ <;> decide
